import Mathlib

/-!
Verification development for the mcp-soloseller repository.

This file gives a shallow embedding of the shipping/carrier abstraction and
the batch-fulfillment orchestration pipeline of the repository, and proves
properties of that embedding.

Modelling conventions:
* Python strings are `String`, optional values are `Option`.
* Python's ambient wall clock (`datetime.now()`) is an explicit `PyDateTime`
  argument; `random.randint(lo, hi)` is modelled by a deterministic draw
  from an ambient seed, always landing in `[lo, hi]`.
* The outcome of a live HTTP call is an explicit `LiveOutcome` oracle
  argument (status/body, connectivity error, or other exception).
* Fields that never influence control flow or the verified properties
  (float weights, binary label payloads, wall-clock timestamp fields)
  are omitted from the record models.
-/

namespace SoloSeller

/-- Decimal digit character, `digitChar n` is the character for digit `n`. -/
def digitChar (n : Nat) : Char := Char.ofNat (48 + n)

/-- Fuelled accumulator-style decimal digit expansion; the fuel only bounds
the recursion depth and never runs out when it starts at the number itself. -/
def decCharsAux : Nat → Nat → List Char → List Char
  | 0, _, acc => acc
  | fuel+1, n, acc =>
    if n = 0 then acc
    else decCharsAux fuel (n / 10) (digitChar (n % 10) :: acc)

/-- Decimal digit expansion of a natural number, mirroring the decimal
rendering Python's `str`/f-strings perform on `int`. -/
def decChars (n : Nat) (acc : List Char) : List Char := decCharsAux n n acc

theorem decCharsAux_fuel :
    ∀ (f1 f2 n : Nat) (acc : List Char), n ≤ f1 → n ≤ f2 →
      decCharsAux f1 n acc = decCharsAux f2 n acc := by
  intro f1
  induction f1 with
  | zero =>
    intro f2 n acc h1 _
    have hn : n = 0 := Nat.le_zero.mp h1
    subst hn
    cases f2 <;> simp [decCharsAux]
  | succ f ih =>
    intro f2 n acc h1 h2
    by_cases hn : n = 0
    · subst hn
      cases f2 <;> simp [decCharsAux]
    · match f2, hn, h2 with
      | 0, hn, h2 => exact absurd (Nat.le_zero.mp h2) hn
      | g+1, hn, _ =>
        simp only [decCharsAux, if_neg hn]
        have hdf : n / 10 ≤ f := by
          have : n / 10 < n := Nat.div_lt_self (by omega) (by omega)
          omega
        have hdg : n / 10 ≤ g := by
          have : n / 10 < n := Nat.div_lt_self (by omega) (by omega)
          omega
        exact ih g (n / 10) _ hdf hdg

/-- Decimal string of a natural number: the model of Python `str(n)` /
`f"{n}"` for a non-negative `int`. -/
def pyStr (n : Nat) : String :=
  if n = 0 then "0" else ⟨decChars n []⟩

/-- All characters of a string are decimal digits. -/
def strDigits (s : String) : Bool := s.data.all Char.isDigit

theorem digitChar_isDigit {m : Nat} (hm : m < 10) : (digitChar m).isDigit = true := by
  interval_cases m <;> decide

theorem decChars_zero (acc : List Char) : decChars 0 acc = acc := rfl

theorem decChars_succ (n : Nat) (acc : List Char) :
    decChars (n+1) acc = decChars ((n+1)/10) (digitChar ((n+1) % 10) :: acc) := by
  show decCharsAux (n+1) (n+1) acc = decCharsAux ((n+1)/10) ((n+1)/10) _
  simp only [decCharsAux, if_neg (Nat.succ_ne_zero n)]
  exact decCharsAux_fuel n ((n+1)/10) ((n+1)/10) _
    (by have : (n+1) / 10 < n+1 := Nat.div_lt_self (Nat.succ_pos _) (by omega); omega)
    (Nat.le_refl _)

theorem decChars_isDigit :
    ∀ (n : Nat) (acc : List Char), (∀ c ∈ acc, c.isDigit = true) →
      ∀ c ∈ decChars n acc, c.isDigit = true := by
  intro n
  induction n using Nat.strong_induction_on with
  | _ n ih =>
    intro acc hacc c hc
    match n with
    | 0 =>
      rw [decChars_zero] at hc
      exact hacc c hc
    | m+1 =>
      rw [decChars_succ] at hc
      refine ih ((m+1)/10) (Nat.div_lt_self (Nat.succ_pos _) (by omega)) _ ?_ c hc
      intro d hd
      rcases List.mem_cons.mp hd with h | h
      · subst h
        exact digitChar_isDigit (Nat.mod_lt _ (by omega))
      · exact hacc d h

theorem decChars_length :
    ∀ (n : Nat), n ≠ 0 → ∀ (acc : List Char),
      (decChars n acc).length = Nat.log 10 n + 1 + acc.length := by
  intro n
  induction n using Nat.strong_induction_on with
  | _ n ih =>
    intro hn acc
    match n, hn with
    | m+1, _ =>
      rw [decChars_succ]
      by_cases hlt : m+1 < 10
      · have hdiv : (m+1)/10 = 0 := Nat.div_eq_of_lt hlt
        have hlog : Nat.log 10 (m+1) = 0 := Nat.log_eq_zero_iff.mpr (Or.inl hlt)
        rw [hdiv, decChars_zero, hlog]
        simp only [List.length_cons]
        omega
      · have hge : 10 ≤ m+1 := by omega
        have hdivne : (m+1)/10 ≠ 0 := by
          have : 1 ≤ (m+1)/10 := (Nat.one_le_div_iff (by omega)).mpr hge
          omega
        rw [ih ((m+1)/10) (Nat.div_lt_self (Nat.succ_pos _) (by omega)) hdivne]
        have hlogdiv : Nat.log 10 ((m+1) / 10) = Nat.log 10 (m+1) - 1 :=
          Nat.log_div_base 10 (m+1)
        have hlogpos : 0 < Nat.log 10 (m+1) :=
          Nat.log_pos (by omega) hge
        simp only [List.length_cons]
        omega

theorem pyStr_length_of_ne_zero {n : Nat} (hn : n ≠ 0) :
    (pyStr n).length = Nat.log 10 n + 1 := by
  unfold pyStr
  rw [if_neg hn]
  show (decChars n []).length = Nat.log 10 n + 1
  rw [decChars_length n hn []]
  simp

theorem pyStr_isDigit (n : Nat) : strDigits (pyStr n) = true := by
  unfold pyStr strDigits
  by_cases hn : n = 0
  · subst hn; decide
  · rw [if_neg hn]
    rw [List.all_eq_true]
    intro c hc
    exact decChars_isDigit n [] (by intro d hd; cases hd) c hc

theorem pyStr_length_range {n k : Nat} (h1 : 10 ^ k ≤ n) (h2 : n < 10 ^ (k+1)) :
    (pyStr n).length = k + 1 := by
  have hn : n ≠ 0 := by
    have : 0 < 10 ^ k := Nat.pos_pow_of_pos k (by omega)
    omega
  rw [pyStr_length_of_ne_zero hn, Nat.log_eq_of_pow_le_of_lt_pow h1 h2]

theorem pyStr_length_lt10 {n : Nat} (h : n < 10) : (pyStr n).length = 1 := by
  by_cases hn : n = 0
  · subst hn; decide
  · exact pyStr_length_range (k := 0) (by omega) (by omega)

/-- Two-digit zero-padded decimal rendering of a bounded field, the model of
`strftime`'s `%m`, `%d`, `%H`, `%M`, `%S` conversions. -/
def pad2 (n : Nat) : String :=
  if n < 10 then "0" ++ pyStr n else pyStr n

theorem pad2_length {n : Nat} (h : n ≤ 99) : (pad2 n).length = 2 := by
  unfold pad2
  by_cases hlt : n < 10
  · rw [if_pos hlt, String.length_append, pyStr_length_lt10 hlt]
    decide
  · rw [if_neg hlt]
    exact pyStr_length_range (k := 1) (by omega) (by omega)

theorem strDigits_append (a b : String) :
    strDigits (a ++ b) = (strDigits a && strDigits b) := by
  unfold strDigits
  rw [String.data_append, List.all_append]

theorem pad2_isDigit (n : Nat) : strDigits (pad2 n) = true := by
  unfold pad2
  by_cases hlt : n < 10
  · rw [if_pos hlt, strDigits_append, pyStr_isDigit]
    decide
  · rw [if_neg hlt]
    exact pyStr_isDigit n

/-- A Python `datetime` value, reduced to the six fields that
`strftime("%Y%m%d%H%M%S")` renders. -/
structure PyDateTime where
  year : Nat
  month : Nat
  day : Nat
  hour : Nat
  minute : Nat
  second : Nat
deriving DecidableEq, Repr

/-- Field bounds of a real `datetime` value in the four-digit-year era. -/
def PyDateTime.Valid (t : PyDateTime) : Prop :=
  1000 ≤ t.year ∧ t.year ≤ 9999 ∧ 1 ≤ t.month ∧ t.month ≤ 12 ∧
    1 ≤ t.day ∧ t.day ≤ 31 ∧ t.hour ≤ 23 ∧ t.minute ≤ 59 ∧ t.second ≤ 59

instance (t : PyDateTime) : Decidable t.Valid := by
  unfold PyDateTime.Valid
  infer_instance

/-- The model of `datetime.now().strftime("%Y%m%d%H%M%S")`. -/
def strftime14 (t : PyDateTime) : String :=
  pyStr t.year ++ pad2 t.month ++ pad2 t.day ++ pad2 t.hour ++
    pad2 t.minute ++ pad2 t.second

theorem strftime14_length {t : PyDateTime} (h : t.Valid) :
    (strftime14 t).length = 14 := by
  obtain ⟨h1, h2, h3, h4, h5, h6, h7, h8, h9⟩ := h
  unfold strftime14
  rw [String.length_append, String.length_append, String.length_append,
    String.length_append, String.length_append]
  rw [pyStr_length_range (k := 3) (by omega) (by omega),
    pad2_length (by omega), pad2_length (by omega), pad2_length (by omega),
    pad2_length (by omega), pad2_length (by omega)]

theorem strftime14_isDigit (t : PyDateTime) : strDigits (strftime14 t) = true := by
  unfold strftime14
  rw [strDigits_append, strDigits_append, strDigits_append, strDigits_append,
    strDigits_append]
  rw [pyStr_isDigit, pad2_isDigit, pad2_isDigit, pad2_isDigit, pad2_isDigit,
    pad2_isDigit]
  decide

/-! ## Carrier data model (models.py / shipping/carriers) -/

/-- The five supported carriers (`CarrierType` in `models.py`). -/
inductive CarrierType
  | cj
  | hanjin
  | lotte
  | logen
  | epost
deriving DecidableEq, Repr

/-- The enum's string value. -/
def CarrierType.value : CarrierType → String
  | .cj => "cj"
  | .hanjin => "hanjin"
  | .lotte => "lotte"
  | .logen => "logen"
  | .epost => "epost"

/-- `CarrierType.display_name`. -/
def CarrierType.displayName : CarrierType → String
  | .cj => "CJ대한통운"
  | .hanjin => "한진택배"
  | .lotte => "롯데택배"
  | .logen => "로젠택배"
  | .epost => "우체국택배"

/-- `CarrierType.marketplace_code`. -/
def CarrierType.marketplaceCode : CarrierType → String
  | .cj => "CJGLS"
  | .hanjin => "HANJIN"
  | .lotte => "LOTTE"
  | .logen => "LOGEN"
  | .epost => "EPOST"

/-- The model of the Python enum constructor `CarrierType(s)`, which raises
`ValueError` (here: `none`) on an unknown code. -/
def carrierTypeOfString (s : String) : Option CarrierType :=
  if s = "cj" then some .cj
  else if s = "hanjin" then some .hanjin
  else if s = "lotte" then some .lotte
  else if s = "logen" then some .logen
  else if s = "epost" then some .epost
  else none

/-- `ShippingRequest` (models.py); the float `weight` and the `box_type`
payload fields never influence the verified behaviour and are omitted. -/
structure ShippingRequest where
  sender_name : String
  sender_phone : String
  sender_address : String
  sender_zipcode : String
  receiver_name : String
  receiver_phone : String
  receiver_address : String
  receiver_zipcode : String
  product_name : String
  quantity : Nat := 1
  memo : Option String := none
  order_id : Option String := none
  channel_order_id : Option String := none
deriving DecidableEq, Repr

/-- `ShippingResponse` (models.py); the binary `label_data` and the
wall-clock `requested_at` fields are omitted. -/
structure ShippingResponse where
  success : Bool
  tracking_number : Option String := none
  label_url : Option String := none
  error : Option String := none
  carrier : String := ""
  carrier_name : String := ""
deriving DecidableEq, Repr

/-- The parsed JSON body of a carrier's HTTP reply, reduced to the keys the
clients read. A key the remote did not send is `none`. -/
structure RemoteJson where
  trackingNumber : Option String := none
  invoiceNo : Option String := none
  waybillNo : Option String := none
  slipNo : Option String := none
  regNo : Option String := none
  labelUrl : Option String := none
  resultCode : Option String := none
deriving DecidableEq, Repr

/-- Oracle for one live HTTP round trip: the call completed with a status
code, body and text, raised a connectivity error (`httpx.ConnectError`,
`aiohttp.ClientError`, timeout), or raised some other exception. -/
inductive LiveOutcome
  | ok (status : Nat) (json : RemoteJson) (text : String)
  | connectError
  | otherError (msg : String)
deriving DecidableEq, Repr

/-- Ambient inputs of a simulated (test-mode) invoice: the wall clock and
the random seed. -/
structure SimEnv where
  now : PyDateTime
  rand : Nat
deriving DecidableEq, Repr

/-- Deterministic model of `random.randint(lo, hi)`: a draw from the seed,
always within `[lo, hi]` when `lo ≤ hi`. -/
def randint (lo hi r : Nat) : Nat := lo + r % (hi + 1 - lo)

theorem randint_le {lo hi r : Nat} (h : lo ≤ hi) :
    lo ≤ randint lo hi r ∧ randint lo hi r ≤ hi := by
  unfold randint
  constructor
  · omega
  · have : r % (hi + 1 - lo) < hi + 1 - lo := Nat.mod_lt _ (by omega)
    omega

/-- Python's `a or b` on optional strings: `b` whenever `a` is `None` or
empty, mirroring `result.get("x") or result.get("y")`. -/
def pyOr (a b : Option String) : Option String :=
  match a with
  | none => b
  | some s => if s = "" then b else some s

/-- The test-mode tracking-number tag each client bakes into
`_test_invoice`: `TEST` for CJ, `HJ`/`LT`/`LG`/`EP` for the others. -/
def simTag : CarrierType → String
  | .cj => "TEST"
  | .hanjin => "HJ"
  | .lotte => "LT"
  | .logen => "LG"
  | .epost => "EP"

/-- The random suffix each client draws: `randint(100, 999)` for Epost,
`randint(1000, 9999)` for the rest. -/
def simSuffix (c : CarrierType) (env : SimEnv) : Nat :=
  match c with
  | .epost => randint 100 999 env.rand
  | _ => randint 1000 9999 env.rand

/-- `_test_invoice` (and the packaged `_test_mode_invoice`): a synthetic
tracking number `{tag}{yyyyMMddHHmmss}{random suffix}` with `success=True`. -/
def testInvoice (c : CarrierType) (env : SimEnv) : ShippingResponse :=
  { success := true
    tracking_number := some (simTag c ++ strftime14 env.now ++ pyStr (simSuffix c env))
    carrier := c.value
    carrier_name := c.displayName }

/-! ## The five flat carrier clients (src/carriers/*.py) -/

/-- One of the five flat clients in `src/carriers`: `CJClient`,
`HanjinClient`, `LotteClient`, `LogenClient`, `EpostClient`. Each sets
`self.test_mode = not api_key` in its constructor. -/
structure FlatClient where
  carrier : CarrierType
  customer_id : String
  api_key : String
deriving DecidableEq, Repr

/-- `self.test_mode = not api_key`. -/
def FlatClient.test_mode (c : FlatClient) : Bool := c.api_key = ""

/-- The live-reply acceptance test of each flat client: CJ accepts
200/201; Hanjin and Lotte accept 200; Logen needs 200 plus
`resultCode == "0000"`; Epost needs 200 plus `resultCode == "00"`. -/
def flatLiveOk (c : CarrierType) (status : Nat) (j : RemoteJson) : Bool :=
  match c with
  | .cj => status = 200 || status = 201
  | .hanjin => status = 200
  | .lotte => status = 200
  | .logen => status = 200 && j.resultCode = some "0000"
  | .epost => status = 200 && j.resultCode = some "00"

/-- How each flat client extracts the tracking number from an accepted
live reply (Python `or` falls through empty/missing values). -/
def flatLiveTracking (c : CarrierType) (j : RemoteJson) : Option String :=
  match c with
  | .cj => pyOr j.trackingNumber j.invoiceNo
  | .hanjin => j.trackingNumber
  | .lotte => pyOr j.waybillNo j.trackingNumber
  | .logen => pyOr j.slipNo j.trackingNumber
  | .epost => pyOr j.regNo j.trackingNumber

/-- `request_invoice` of a flat client (src/carriers): test mode returns the
synthetic invoice; in live mode an accepted reply yields a success response,
while a rejected status, a failed result code, a connectivity error or any
other exception all fall back to `_test_invoice`. -/
def FlatClient.request_invoice (c : FlatClient) (_req : ShippingRequest)
    (live : LiveOutcome) (env : SimEnv) : ShippingResponse :=
  if c.test_mode then testInvoice c.carrier env
  else
    match live with
    | .ok status j _ =>
      if flatLiveOk c.carrier status j then
        { success := true
          tracking_number := flatLiveTracking c.carrier j
          carrier := c.carrier.value
          carrier_name := c.carrier.displayName }
      else testInvoice c.carrier env
    | .connectError => testInvoice c.carrier env
    | .otherError _ => testInvoice c.carrier env

/-! ## The packaged Hanjin client (src/src/shipping/carriers/hanjin.py) -/

/-- `HanjinClient` of the packaged tree: constructed with an explicit
`test_mode` flag, `self.test_mode = test_mode or not api_key`. -/
structure HanjinClientV2 where
  customer_id : String
  api_key : String
  test_mode_arg : Bool := false
deriving DecidableEq, Repr

/-- `self.test_mode = test_mode or not api_key`. -/
def HanjinClientV2.test_mode (c : HanjinClientV2) : Bool :=
  c.test_mode_arg || c.api_key = ""

/-- `HanjinClient.request_invoice` of the packaged tree: unlike the flat
clients, a completed call with a non-200 status returns an explicit
failure response; only raised exceptions fall back to test mode. -/
def HanjinClientV2.request_invoice (c : HanjinClientV2) (_req : ShippingRequest)
    (live : LiveOutcome) (env : SimEnv) : ShippingResponse :=
  if c.test_mode then testInvoice .hanjin env
  else
    match live with
    | .ok status j text =>
      if status = 200 then
        { success := true
          tracking_number := j.trackingNumber
          label_url := j.labelUrl
          carrier := CarrierType.hanjin.value
          carrier_name := CarrierType.hanjin.displayName }
      else
        { success := false
          error := some ("API 오류: " ++ pyStr status ++ " - " ++ text)
          carrier := CarrierType.hanjin.value
          carrier_name := CarrierType.hanjin.displayName }
    | .connectError => testInvoice .hanjin env
    | .otherError _ => testInvoice .hanjin env

/-! ## The backup CJ client (src/src_backup/shipping/carriers/cj.py) -/

/-- `CJLogisticsClient`: constructed with an explicit `test_mode` flag
(defaulting to `False`; its callers pass `test_mode=not api_key`). -/
structure CJLogisticsClient where
  customer_id : String
  api_key : String
  contract_code : Option String := none
  test_mode : Bool := false
deriving DecidableEq, Repr

/-- `CJLogisticsClient.request_invoice`: test mode yields the synthetic
invoice; live mode returns success on 200/201, an explicit failure on any
other status, a retry-in-test-mode (hence the synthetic invoice) on
`httpx.ConnectError`, and an explicit failure on any other exception. -/
def CJLogisticsClient.request_invoice (c : CJLogisticsClient)
    (_req : ShippingRequest) (live : LiveOutcome) (env : SimEnv) :
    ShippingResponse :=
  if c.test_mode then testInvoice .cj env
  else
    match live with
    | .ok status j text =>
      if status = 200 || status = 201 then
        { success := true
          tracking_number := pyOr j.trackingNumber j.invoiceNo
          label_url := j.labelUrl
          carrier := CarrierType.cj.value
          carrier_name := CarrierType.cj.displayName }
      else
        { success := false
          error := some ("송장 발급 실패: " ++ text)
          carrier := CarrierType.cj.value
          carrier_name := CarrierType.cj.displayName }
    | .connectError => testInvoice .cj env
    | .otherError msg =>
      { success := false
        error := some ("송장 발급 오류: " ++ msg)
        carrier := CarrierType.cj.value
        carrier_name := CarrierType.cj.displayName }

/-! ## Shared sample inputs -/

/-- A sample shipping request, used to instantiate witnesses. -/
def sampleReq : ShippingRequest :=
  { sender_name := "홍길동"
    sender_phone := "01011112222"
    sender_address := "서울시 강남구"
    sender_zipcode := "06000"
    receiver_name := "김철수"
    receiver_phone := "01033334444"
    receiver_address := "부산시 해운대구"
    receiver_zipcode := "48000"
    product_name := "상품" }

/-- A sample ambient environment: a valid clock value plus a random seed. -/
def sampleEnv : SimEnv := { now := ⟨2025, 10, 12, 9, 30, 0⟩, rand := 7 }

/-! ## C1-C3 helper lemmas -/

theorem simTag_length_pos (c : CarrierType) : 0 < (simTag c).length := by
  cases c <;> decide

theorem simSuffix_pyStr_length (c : CarrierType) (env : SimEnv) :
    (pyStr (simSuffix c env)).length = 3 ∨ (pyStr (simSuffix c env)).length = 4 := by
  cases c
  case epost =>
    left
    have h := @randint_le 100 999 env.rand (by omega)
    simp only [simSuffix]
    exact pyStr_length_range (k := 2) (by omega) (by omega)
  all_goals
    right
  all_goals
    have h := @randint_le 1000 9999 env.rand (by omega)
    simp only [simSuffix]
    exact pyStr_length_range (k := 3) (by omega) (by omega)

theorem simTracking_ne_empty (c : CarrierType) (env : SimEnv) :
    simTag c ++ strftime14 env.now ++ pyStr (simSuffix c env) ≠ "" := by
  intro h
  have hlen : (simTag c ++ strftime14 env.now ++ pyStr (simSuffix c env)).length = 0 := by
    rw [h]
    rfl
  rw [String.length_append, String.length_append] at hlen
  have := simTag_length_pos c
  omega

theorem flat_empty_key_test_mode (c : CarrierType) (cid : String) :
    (FlatClient.test_mode ⟨c, cid, ""⟩) = true := by
  simp [FlatClient.test_mode]

theorem flat_empty_key_request (c : CarrierType) (cid : String)
    (req : ShippingRequest) (live : LiveOutcome) (env : SimEnv) :
    FlatClient.request_invoice ⟨c, cid, ""⟩ req live env = testInvoice c env := by
  unfold FlatClient.request_invoice
  rw [flat_empty_key_test_mode]
  simp

/-- C1: a carrier client constructed with an empty API key is in simulated
mode, and its `request_invoice` always succeeds with a tracking number of
the form tag ++ yyyyMMddHHmmss ++ random-suffix: the carrier-specific tag
(`TEST` for the CJ client, `HJ`/`LT`/`LG`/`EP` for the others) followed by
14 digits of clock and a numeric 3-4 digit suffix; this holds for each of
the five flat clients, for the packaged Hanjin client, and for the backup
CJ client as its callers construct it (`test_mode=not api_key`). -/
theorem simulated_mode_invoice_format (c : CarrierType) (cid : String)
    (req : ShippingRequest) (live : LiveOutcome) (env : SimEnv)
    (hv : env.now.Valid) :
    (FlatClient.request_invoice ⟨c, cid, ""⟩ req live env).success = true ∧
    (FlatClient.request_invoice ⟨c, cid, ""⟩ req live env).tracking_number =
      some (simTag c ++ strftime14 env.now ++ pyStr (simSuffix c env)) ∧
    (strftime14 env.now).length = 14 ∧
    strDigits (strftime14 env.now) = true ∧
    ((pyStr (simSuffix c env)).length = 3 ∨ (pyStr (simSuffix c env)).length = 4) ∧
    strDigits (pyStr (simSuffix c env)) = true ∧
    simTag c ++ strftime14 env.now ++ pyStr (simSuffix c env) ≠ "" ∧
    HanjinClientV2.request_invoice ⟨cid, "", false⟩ req live env =
      testInvoice .hanjin env ∧
    CJLogisticsClient.request_invoice ⟨cid, "", none, true⟩ req live env =
      testInvoice .cj env := by
  refine ⟨?_, ?_, strftime14_length hv, strftime14_isDigit _,
    simSuffix_pyStr_length c env, pyStr_isDigit _, simTracking_ne_empty c env,
    ?_, ?_⟩
  · rw [flat_empty_key_request]
    rfl
  · rw [flat_empty_key_request]
    rfl
  · unfold HanjinClientV2.request_invoice
    have : (HanjinClientV2.test_mode ⟨cid, "", false⟩) = true := by
      simp [HanjinClientV2.test_mode]
    rw [this]
    simp
  · unfold CJLogisticsClient.request_invoice
    simp

/-- Witness for C1: the hypotheses are satisfiable at a concrete input. -/
theorem simulated_mode_invoice_format_witness :
    (sampleEnv.now.Valid) ∧
    (FlatClient.request_invoice ⟨.cj, "cust", ""⟩ sampleReq .connectError
      sampleEnv).success = true :=
  ⟨by decide,
   (simulated_mode_invoice_format .cj "cust" sampleReq .connectError sampleEnv
     (by decide)).1⟩

/-- C2 counterexample: the fallback is not uniform across the carrier
clients the claim cites. The packaged Hanjin client in live mode (API key
present) does NOT fall back to the simulated response when the live call
completes with a non-success HTTP status: it returns the explicit failure
response, with no tracking number, where the claim demands `success=true`
with a synthetic tracking number. The backup CJ client likewise returns
explicit failures on a non-2xx status and on a non-connectivity
exception. -/
theorem live_fallback_uniformity_counterexample :
    HanjinClientV2.request_invoice ⟨"cust", "key", false⟩ sampleReq
        (.ok 500 {} "Server Error") sampleEnv =
      { success := false
        error := some "API 오류: 500 - Server Error"
        carrier := "hanjin"
        carrier_name := "한진택배" } ∧
    (HanjinClientV2.request_invoice ⟨"cust", "key", false⟩ sampleReq
      (.ok 500 {} "Server Error") sampleEnv).success = false ∧
    (HanjinClientV2.request_invoice ⟨"cust", "key", false⟩ sampleReq
      (.ok 500 {} "Server Error") sampleEnv).tracking_number = none ∧
    (CJLogisticsClient.request_invoice ⟨"cust", "key", none, false⟩ sampleReq
      (.ok 404 {} "Not Found") sampleEnv).success = false ∧
    (CJLogisticsClient.request_invoice ⟨"cust", "key", none, false⟩ sampleReq
      (.ok 404 {} "Not Found") sampleEnv).error =
      some "송장 발급 실패: Not Found" ∧
    (CJLogisticsClient.request_invoice ⟨"cust", "key", none, false⟩ sampleReq
      (.otherError "boom") sampleEnv).success = false := by
  refine ⟨?_, ?_, ?_, ?_, ?_, ?_⟩ <;> decide

/-- C2 amended: the five flat clients do fall back transparently to the
simulated response — which always reports `success=true` with a non-empty
synthetic tracking number — on both a connectivity error (or any other
exception) and a non-accepted live reply; the packaged Hanjin client falls
back only on raised exceptions and returns the explicit failure response
carrying the remote status and text on a non-200 status; the backup CJ
client falls back only on `httpx.ConnectError` and returns an explicit
failure response both on a non-2xx status and on any other exception. -/
theorem live_fallback_per_client (c : CarrierType) (cid key : String)
    (hkey : key ≠ "") (req : ShippingRequest) (env : SimEnv) :
    (FlatClient.request_invoice ⟨c, cid, key⟩ req .connectError env =
      testInvoice c env) ∧
    (∀ msg, FlatClient.request_invoice ⟨c, cid, key⟩ req (.otherError msg) env =
      testInvoice c env) ∧
    (∀ status j text, flatLiveOk c status j = false →
      FlatClient.request_invoice ⟨c, cid, key⟩ req (.ok status j text) env =
        testInvoice c env) ∧
    (HanjinClientV2.request_invoice ⟨cid, key, false⟩ req .connectError env =
      testInvoice .hanjin env) ∧
    (∀ msg, HanjinClientV2.request_invoice ⟨cid, key, false⟩ req
      (.otherError msg) env = testInvoice .hanjin env) ∧
    (∀ status j text, status ≠ 200 →
      HanjinClientV2.request_invoice ⟨cid, key, false⟩ req
        (.ok status j text) env =
      { success := false
        error := some ("API 오류: " ++ pyStr status ++ " - " ++ text)
        carrier := CarrierType.hanjin.value
        carrier_name := CarrierType.hanjin.displayName }) ∧
    (CJLogisticsClient.request_invoice ⟨cid, key, none, false⟩ req
      .connectError env = testInvoice .cj env) ∧
    (∀ status j text, status ≠ 200 → status ≠ 201 →
      CJLogisticsClient.request_invoice ⟨cid, key, none, false⟩ req
        (.ok status j text) env =
      { success := false
        error := some ("송장 발급 실패: " ++ text)
        carrier := CarrierType.cj.value
        carrier_name := CarrierType.cj.displayName }) ∧
    (∀ msg, CJLogisticsClient.request_invoice ⟨cid, key, none, false⟩ req
      (.otherError msg) env =
      { success := false
        error := some ("송장 발급 오류: " ++ msg)
        carrier := CarrierType.cj.value
        carrier_name := CarrierType.cj.displayName }) ∧
    (testInvoice c env).success = true ∧
    (∃ t, (testInvoice c env).tracking_number = some t ∧ t ≠ "") := by
  have hflat : (FlatClient.test_mode ⟨c, cid, key⟩) = false := by
    simp [FlatClient.test_mode, hkey]
  have hhj : (HanjinClientV2.test_mode ⟨cid, key, false⟩) = false := by
    simp [HanjinClientV2.test_mode, hkey]
  refine ⟨?_, ?_, ?_, ?_, ?_, ?_, ?_, ?_, ?_, rfl,
    ⟨_, rfl, simTracking_ne_empty c env⟩⟩
  · unfold FlatClient.request_invoice
    rw [hflat]
    simp
  · intro msg
    unfold FlatClient.request_invoice
    rw [hflat]
    simp
  · intro status j text hok
    unfold FlatClient.request_invoice
    rw [hflat]
    simp [hok]
  · unfold HanjinClientV2.request_invoice
    rw [hhj]
    simp
  · intro msg
    unfold HanjinClientV2.request_invoice
    rw [hhj]
    simp
  · intro status j text hst
    unfold HanjinClientV2.request_invoice
    rw [hhj]
    simp [hst]
  · unfold CJLogisticsClient.request_invoice
    simp
  · intro status j text h1 h2
    unfold CJLogisticsClient.request_invoice
    simp [h1, h2]
  · intro msg
    unfold CJLogisticsClient.request_invoice
    simp

/-- Witness for the amended C2 theorem at a concrete input. -/
theorem live_fallback_per_client_witness :
    ("key" : String) ≠ "" ∧
    FlatClient.request_invoice ⟨.lotte, "cust", "key"⟩ sampleReq .connectError
      sampleEnv = testInvoice .lotte sampleEnv :=
  ⟨by decide,
   (live_fallback_per_client .lotte "cust" "key" (by decide) sampleReq
     sampleEnv).1⟩

/-- C3 counterexample: a flat CJ client in live mode receiving HTTP 200 with
a JSON body that carries neither `trackingNumber` nor `invoiceNo` produces
`success=true` with an empty tracking number, refuting the claimed
equivalence between success and a non-empty tracking number. -/
theorem response_invariant_counterexample :
    (FlatClient.request_invoice ⟨.cj, "cust", "key"⟩ sampleReq
      (.ok 200 {} "") sampleEnv).success = true ∧
    (FlatClient.request_invoice ⟨.cj, "cust", "key"⟩ sampleReq
      (.ok 200 {} "") sampleEnv).tracking_number = none ∧
    (FlatClient.request_invoice ⟨.cj, "cust", "key"⟩ sampleReq
      (.ok 200 {} "") sampleEnv).error = none := by
  refine ⟨?_, ?_, ?_⟩ <;> decide

/-- Whether a response's error field is empty (missing or `""`). -/
def errEmpty (r : ShippingResponse) : Bool :=
  match r.error with
  | none => true
  | some s => s = ""

/-- C3 amended: for every response any of the embedded carrier clients can
produce, `success=false` holds iff the error field is non-empty, and a
failure response never carries a tracking number; a simulated-mode response
additionally always carries a non-empty tracking number, but a live success
response only carries whatever tracking value the remote supplied, which
may be absent. -/
theorem response_invariant_amended (req : ShippingRequest)
    (live : LiveOutcome) (env : SimEnv) :
    (∀ fc : FlatClient,
      ((fc.request_invoice req live env).success = false ↔
        errEmpty (fc.request_invoice req live env) = false) ∧
      ((fc.request_invoice req live env).success = false →
        (fc.request_invoice req live env).tracking_number = none)) ∧
    (∀ hc : HanjinClientV2,
      ((hc.request_invoice req live env).success = false ↔
        errEmpty (hc.request_invoice req live env) = false) ∧
      ((hc.request_invoice req live env).success = false →
        (hc.request_invoice req live env).tracking_number = none)) ∧
    (∀ cc : CJLogisticsClient,
      ((cc.request_invoice req live env).success = false ↔
        errEmpty (cc.request_invoice req live env) = false) ∧
      ((cc.request_invoice req live env).success = false →
        (cc.request_invoice req live env).tracking_number = none)) ∧
    (∀ c : CarrierType,
      (testInvoice c env).success = true ∧
      errEmpty (testInvoice c env) = true ∧
      ∃ t, (testInvoice c env).tracking_number = some t ∧ t ≠ "") := by
  refine ⟨?_, ?_, ?_, ?_⟩
  · intro fc
    unfold FlatClient.request_invoice
    by_cases hm : fc.test_mode
    · simp [hm, testInvoice, errEmpty]
    · simp only [hm, Bool.false_eq_true, if_false]
      match live with
      | .ok status j text =>
        by_cases hok : flatLiveOk fc.carrier status j
        · simp [hok, errEmpty]
        · simp [hok, testInvoice, errEmpty]
      | .connectError => simp [testInvoice, errEmpty]
      | .otherError msg => simp [testInvoice, errEmpty]
  · intro hc
    unfold HanjinClientV2.request_invoice
    by_cases hm : hc.test_mode
    · simp [hm, testInvoice, errEmpty]
    · simp only [hm, Bool.false_eq_true, if_false]
      match live with
      | .ok status j text =>
        by_cases hok : status = 200
        · simp [hok, errEmpty]
        · have hne : ("API 오류: " ++ pyStr status ++ " - " ++ text) ≠ "" := by
            intro h
            have hl : ("API 오류: " ++ pyStr status ++ " - " ++ text).length = 0 := by
              rw [h]
              rfl
            rw [String.length_append, String.length_append,
              String.length_append] at hl
            have hp : 0 < ("API 오류: " : String).length := by decide
            omega
          simp [hok, errEmpty, hne]
      | .connectError => simp [testInvoice, errEmpty]
      | .otherError msg => simp [testInvoice, errEmpty]
  · intro cc
    unfold CJLogisticsClient.request_invoice
    by_cases hm : cc.test_mode
    · simp [hm, testInvoice, errEmpty]
    · simp only [hm, Bool.false_eq_true, if_false]
      match live with
      | .ok status j text =>
        by_cases hok : (status = 200 || status = 201 : Bool)
        · simp [hok, errEmpty]
        · have hne : ("송장 발급 실패: " ++ text) ≠ "" := by
            intro h
            have hl : ("송장 발급 실패: " ++ text).length = 0 := by
              rw [h]
              rfl
            rw [String.length_append] at hl
            have hp : 0 < ("송장 발급 실패: " : String).length := by decide
            omega
          simp [hok, errEmpty, hne]
      | .connectError => simp [testInvoice, errEmpty]
      | .otherError msg =>
        have hne : ("송장 발급 오류: " ++ msg) ≠ "" := by
          intro h
          have hl : ("송장 발급 오류: " ++ msg).length = 0 := by
            rw [h]
            rfl
          rw [String.length_append] at hl
          have hp : 0 < ("송장 발급 오류: " : String).length := by decide
          omega
        simp [errEmpty, hne]
  · intro c
    refine ⟨rfl, rfl, ⟨_, rfl, simTracking_ne_empty c env⟩⟩

/-! ## Persistent entities and the batch orchestrator (src/src/main.py) -/

/-- `ChannelType` of the packaged tree: the two marketplaces. -/
inductive Channel
  | naver
  | coupang
deriving DecidableEq, Repr

/-- `OrderStatus` (src/src/database.py). -/
inductive OrderStatus
  | new
  | confirmed
  | shipped
  | delivering
  | delivered
  | cancelled
deriving DecidableEq, Repr

/-- Position of a status along the forward lifecycle chain
`new → confirmed → shipped → delivering → delivered`; `cancelled` sits
outside the chain (no embedded operation ever produces it). -/
def OrderStatus.rank : OrderStatus → Nat
  | .new => 0
  | .confirmed => 1
  | .shipped => 2
  | .delivering => 3
  | .delivered => 4
  | .cancelled => 5

/-- A `ChannelOrder` fetched from a marketplace, reduced to the fields
`_save_order` copies that the verified properties depend on (line items and
the remaining contact/amount fields are persisted verbatim and modelled by
the representative `buyer_name`/`receiver_name` copies). -/
structure ChannelOrderData where
  channel_order_id : String
  buyer_name : String := ""
  receiver_name : String := ""
deriving DecidableEq, Repr

/-- A persisted `Order` row (src/src/database.py); wall-clock timestamp
columns are omitted. -/
structure OrderRow where
  id : Nat
  channel : Channel
  channel_order_id : String
  status : OrderStatus
  buyer_name : String := ""
  receiver_name : String := ""
  tracking_number : Option String := none
deriving DecidableEq, Repr

/-- A persisted `ProcessingLog` row, reduced to the batch number and the
four aggregate counts (the JSON details blob and timestamps are omitted). -/
structure ProcessingLogRow where
  batch_number : Nat
  orders_collected : Nat
  orders_confirmed : Nat
  invoices_printed : Nat
  errors : Nat
deriving DecidableEq, Repr

/-- Which channel clients and notifier the server was initialized with. -/
structure ServerCfg where
  hasNaver : Bool
  hasCoupang : Bool
  hasNotifier : Bool
deriving DecidableEq, Repr

/-- The persistent server state the orchestrator reads and writes: the
order table (with its autoincrement counter) and the processing-log table. -/
structure ServerState where
  db : List OrderRow
  nextId : Nat
  logs : List ProcessingLogRow
deriving DecidableEq, Repr

/-- Outcome of one channel-client call: returned `True`, returned `False`,
or raised an exception. -/
inductive StepOutcome
  | ok
  | fail
  | exc
deriving DecidableEq, Repr

/-- Oracle for one order's confirm and register-invoice calls. -/
structure OrderOracle where
  confirm : StepOutcome
  register : StepOutcome
deriving DecidableEq, Repr

/-- Oracle for one batch run: each channel's fetch result (`none` means the
fetch raised and was caught per-channel), the per-order step outcomes keyed
by order id, and whether emitting the completion notification raises. -/
structure BatchOracle where
  naverFetch : Option (List ChannelOrderData)
  coupangFetch : Option (List ChannelOrderData)
  step : Nat → OrderOracle
  notifyRaises : Bool

/-- The `(channel, channel_order_id)` uniqueness probe of `_save_order`. -/
def keyExists (db : List OrderRow) (ch : Channel) (coid : String) : Bool :=
  db.any (fun o => decide (o.channel = ch ∧ o.channel_order_id = coid))

/-- `_save_order`: skip (returning `none`, not an error) when the pair is
already persisted, else insert a fresh row in state `new`. -/
def saveOrder (db : List OrderRow) (nextId : Nat) (od : ChannelOrderData)
    (ch : Channel) : Option OrderRow × List OrderRow × Nat :=
  if keyExists db ch od.channel_order_id then (none, db, nextId)
  else
    let row : OrderRow :=
      { id := nextId
        channel := ch
        channel_order_id := od.channel_order_id
        status := .new
        buyer_name := od.buyer_name
        receiver_name := od.receiver_name }
    (some row, db ++ [row], nextId + 1)

/-- The per-channel loop of `_collect_new_orders`: fold `_save_order` over
the fetched list, collecting the rows actually inserted. -/
def saveAll (ch : Channel) : List ChannelOrderData → List OrderRow → Nat →
    List OrderRow → List OrderRow × List OrderRow × Nat
  | [], db, nid, coll => (coll, db, nid)
  | od :: rest, db, nid, coll =>
    match saveOrder db nid od ch with
    | (none, db1, nid1) => saveAll ch rest db1 nid1 coll
    | (some row, db1, nid1) => saveAll ch rest db1 nid1 (coll ++ [row])

/-- One channel's contribution to `_collect_new_orders`: nothing when the
client is absent or its fetch raised (caught and logged per channel). -/
def collectChannel (enabled : Bool) (fetch : Option (List ChannelOrderData))
    (ch : Channel) (db : List OrderRow) (nid : Nat) :
    List OrderRow × List OrderRow × Nat :=
  match enabled, fetch with
  | true, some l => saveAll ch l db nid []
  | _, _ => ([], db, nid)

/-- `_collect_new_orders`: Naver first, then Coupang, merged into one
working list. -/
def collectNewOrders (cfg : ServerCfg) (nf cf : Option (List ChannelOrderData))
    (db : List OrderRow) (nid : Nat) : List OrderRow × List OrderRow × Nat :=
  let r1 := collectChannel cfg.hasNaver nf .naver db nid
  let r2 := collectChannel cfg.hasCoupang cf .coupang r1.2.1 r1.2.2
  (r1.1 ++ r2.1, r2.2.1, r2.2.2)

/-- Whether the owning channel client of an order is configured
(`_confirm_order` / `_register_invoice_to_channel` return `False` when it
is not). -/
def clientPresent (cfg : ServerCfg) (ch : Channel) : Bool :=
  match ch with
  | .naver => cfg.hasNaver
  | .coupang => cfg.hasCoupang

/-- The dummy tracking number `_run_batch_processing` synthesizes:
`f"TEST{now:%Y%m%d%H%M%S}{order.id}"`. -/
def dummyTracking (env : SimEnv) (id : Nat) : String :=
  "TEST" ++ strftime14 env.now ++ pyStr id

/-- The ORM commit `order.status = CONFIRMED`. -/
def setStatus (db : List OrderRow) (id : Nat) (st : OrderStatus) : List OrderRow :=
  db.map (fun o => if o.id = id then { o with status := st } else o)

/-- The ORM commit `order.status = SHIPPED; order.tracking_number = tn`. -/
def setShipped (db : List OrderRow) (id : Nat) (tn : String) : List OrderRow :=
  db.map (fun o =>
    if o.id = id then { o with status := OrderStatus.shipped, tracking_number := some tn }
    else o)

/-- Mutable state of the per-order loop: the order table plus the
`confirmed`/`printed`/`errors` counters, and the trace of status
assignments performed (old value, new value). -/
structure LoopState where
  db : List OrderRow
  confirmed : Nat
  printed : Nat
  errors : Nat
  writes : List (OrderStatus × OrderStatus)
deriving DecidableEq, Repr

/-- One iteration of the per-order loop in `_run_batch_processing`: the
confirm → dummy-invoice → register sequence runs inside one per-order
try/except, so a raised exception increments the error count and moves on,
while a `False` return merely skips the remainder of the sequence without
touching the error count. -/
def processOrder (cfg : ServerCfg) (env : SimEnv) (orc : Nat → OrderOracle)
    (s : LoopState) (o : OrderRow) : LoopState :=
  if clientPresent cfg o.channel = false then s
  else
    match (orc o.id).confirm with
    | .exc => { s with errors := s.errors + 1 }
    | .fail => s
    | .ok =>
      let s1 : LoopState :=
        { s with
          db := setStatus s.db o.id .confirmed
          confirmed := s.confirmed + 1
          writes := s.writes ++ [(o.status, .confirmed)] }
      match (orc o.id).register with
      | .exc => { s1 with errors := s1.errors + 1 }
      | .fail => s1
      | .ok =>
        { s1 with
          db := setShipped s1.db o.id (dummyTracking env o.id)
          printed := s1.printed + 1
          writes := s1.writes ++ [(.confirmed, .shipped)] }

/-- The sequential per-order loop (orders strictly one after another). -/
def runOrders (cfg : ServerCfg) (env : SimEnv) (orc : Nat → OrderOracle) :
    LoopState → List OrderRow → LoopState
  | s, [] => s
  | s, o :: rest => runOrders cfg env orc (processOrder cfg env orc s o) rest

/-- What one batch run produced, beyond the new server state: the aggregate
counts, the status-assignment trace, and which notifications went out. -/
structure BatchReport where
  state : ServerState
  collected : Nat
  confirmed : Nat
  printed : Nat
  errors : Nat
  writes : List (OrderStatus × OrderStatus)
  notified : Bool
  errorNotified : Bool
deriving DecidableEq, Repr

/-- `_run_batch_processing`: collect, per-order loop, then the completion
notification and only after it the `ProcessingLog` insert — both inside the
same run-level try/except, so a notifier that raises is caught (an error
notification goes out instead) but the `ProcessingLog` row is never
written; per-order progress already committed is retained either way. -/
def runBatchProcessing (cfg : ServerCfg) (st : ServerState) (batchNumber : Nat)
    (orc : BatchOracle) (env : SimEnv) : BatchReport :=
  let collRes := collectNewOrders cfg orc.naverFetch orc.coupangFetch st.db st.nextId
  let ls := runOrders cfg env orc.step
    { db := collRes.2.1, confirmed := 0, printed := 0, errors := 0, writes := [] }
    collRes.1
  if cfg.hasNotifier && orc.notifyRaises then
    { state := { db := ls.db, nextId := collRes.2.2, logs := st.logs }
      collected := collRes.1.length
      confirmed := ls.confirmed
      printed := ls.printed
      errors := ls.errors
      writes := ls.writes
      notified := false
      errorNotified := true }
  else
    { state :=
        { db := ls.db
          nextId := collRes.2.2
          logs := st.logs ++
            [{ batch_number := batchNumber
               orders_collected := collRes.1.length
               orders_confirmed := ls.confirmed
               invoices_printed := ls.printed
               errors := ls.errors }] }
      collected := collRes.1.length
      confirmed := ls.confirmed
      printed := ls.printed
      errors := ls.errors
      writes := ls.writes
      notified := cfg.hasNotifier
      errorNotified := false }

/-! ## Ingestion lemmas -/

theorem keyExists_append {db : List OrderRow} {ch : Channel} {k : String}
    (ext : List OrderRow) (h : keyExists db ch k = true) :
    keyExists (db ++ ext) ch k = true := by
  unfold keyExists at *
  rw [List.any_append, h]
  rfl

theorem keyExists_insert (db : List OrderRow) {row : OrderRow} {ch : Channel}
    {k : String} (h1 : row.channel = ch) (h2 : row.channel_order_id = k) :
    keyExists (db ++ [row]) ch k = true := by
  unfold keyExists
  rw [List.any_append]
  simp [h1, h2]

/-- The row `_save_order` builds for a fresh `(channel, id)` pair. -/
def freshRow (nid : Nat) (od : ChannelOrderData) (ch : Channel) : OrderRow :=
  { id := nid
    channel := ch
    channel_order_id := od.channel_order_id
    status := .new
    buyer_name := od.buyer_name
    receiver_name := od.receiver_name }

theorem saveOrder_skip {db : List OrderRow} {ch : Channel}
    {od : ChannelOrderData} (nid : Nat)
    (h : keyExists db ch od.channel_order_id = true) :
    saveOrder db nid od ch = (none, db, nid) := by
  unfold saveOrder
  rw [if_pos h]

theorem saveOrder_insert {db : List OrderRow} {ch : Channel}
    {od : ChannelOrderData} (nid : Nat)
    (h : ¬ keyExists db ch od.channel_order_id = true) :
    saveOrder db nid od ch =
      (some (freshRow nid od ch), db ++ [freshRow nid od ch], nid + 1) := by
  unfold saveOrder freshRow
  rw [if_neg h]

theorem saveAll_cons_skip {db : List OrderRow} {ch : Channel}
    {od : ChannelOrderData} {rest : List ChannelOrderData} {nid : Nat}
    {coll : List OrderRow} (h : keyExists db ch od.channel_order_id = true) :
    saveAll ch (od :: rest) db nid coll = saveAll ch rest db nid coll := by
  show (match saveOrder db nid od ch with
    | (none, db1, nid1) => saveAll ch rest db1 nid1 coll
    | (some row, db1, nid1) => saveAll ch rest db1 nid1 (coll ++ [row])) = _
  rw [saveOrder_skip nid h]

theorem saveAll_cons_insert {db : List OrderRow} {ch : Channel}
    {od : ChannelOrderData} {rest : List ChannelOrderData} {nid : Nat}
    {coll : List OrderRow} (h : ¬ keyExists db ch od.channel_order_id = true) :
    saveAll ch (od :: rest) db nid coll =
      saveAll ch rest (db ++ [freshRow nid od ch]) (nid + 1)
        (coll ++ [freshRow nid od ch]) := by
  show (match saveOrder db nid od ch with
    | (none, db1, nid1) => saveAll ch rest db1 nid1 coll
    | (some row, db1, nid1) => saveAll ch rest db1 nid1 (coll ++ [row])) = _
  rw [saveOrder_insert nid h]

theorem saveAll_spec (ch : Channel) :
    ∀ (l : List ChannelOrderData) (db : List OrderRow) (nid : Nat)
      (coll : List OrderRow),
      ∃ new : List OrderRow,
        saveAll ch l db nid coll = (coll ++ new, db ++ new, nid + new.length) ∧
        ∀ i : Fin new.length, (new.get i).id = nid + i.val ∧
          (new.get i).status = .new ∧ (new.get i).channel = ch ∧
          (new.get i).tracking_number = none := by
  intro l
  induction l with
  | nil =>
    intro db nid coll
    refine ⟨[], by simp [saveAll], ?_⟩
    intro i
    exact absurd i.isLt (by simp)
  | cons od rest ih =>
    intro db nid coll
    by_cases hk : keyExists db ch od.channel_order_id = true
    · obtain ⟨new, heq, hidx⟩ := ih db nid coll
      exact ⟨new, by rw [saveAll_cons_skip hk, heq], hidx⟩
    · obtain ⟨new, heq, hidx⟩ :=
        ih (db ++ [freshRow nid od ch]) (nid + 1) (coll ++ [freshRow nid od ch])
      refine ⟨freshRow nid od ch :: new, ?_, ?_⟩
      · rw [saveAll_cons_insert hk, heq]
        simp only [Prod.mk.injEq]
        refine ⟨?_, ?_, ?_⟩
        · rw [List.append_assoc]
          rfl
        · rw [List.append_assoc]
          rfl
        · simp only [List.length_cons]
          omega
      · intro i
        rcases i with ⟨i, hi⟩
        cases i with
        | zero => exact ⟨rfl, rfl, rfl, rfl⟩
        | succ j =>
          have hj : j < new.length := by
            simp only [List.length_cons] at hi
            omega
          have := hidx ⟨j, hj⟩
          refine ⟨?_, this.2.1, this.2.2.1, this.2.2.2⟩
          have h1 : (new.get ⟨j, hj⟩).id = nid + 1 + j := this.1
          show (new.get ⟨j, hj⟩).id = nid + (j + 1)
          omega

theorem saveAll_keys (ch : Channel) :
    ∀ (l : List ChannelOrderData) (db : List OrderRow) (nid : Nat)
      (coll : List OrderRow), ∀ od ∈ l,
      keyExists (saveAll ch l db nid coll).2.1 ch od.channel_order_id = true := by
  intro l
  induction l with
  | nil =>
    intro db nid coll od h
    cases h
  | cons od0 rest ih =>
    intro db nid coll od hmem
    by_cases hk : keyExists db ch od0.channel_order_id = true
    · rw [saveAll_cons_skip hk]
      rcases List.mem_cons.mp hmem with h | h
      · subst h
        obtain ⟨new, heq, _⟩ := saveAll_spec ch rest db nid coll
        rw [heq]
        exact keyExists_append new hk
      · exact ih db nid coll od h
    · rw [saveAll_cons_insert hk]
      rcases List.mem_cons.mp hmem with h | h
      · subst h
        obtain ⟨new, heq, _⟩ :=
          saveAll_spec ch rest (db ++ [freshRow nid od ch]) (nid + 1)
            (coll ++ [freshRow nid od ch])
        rw [heq]
        exact keyExists_append new (keyExists_insert db rfl rfl)
      · exact ih _ _ _ od h

theorem saveAll_skips (ch : Channel) :
    ∀ (l : List ChannelOrderData) (db : List OrderRow) (nid : Nat)
      (coll : List OrderRow),
      (∀ od ∈ l, keyExists db ch od.channel_order_id = true) →
      saveAll ch l db nid coll = (coll, db, nid) := by
  intro l
  induction l with
  | nil =>
    intro db nid coll _
    rfl
  | cons od0 rest ih =>
    intro db nid coll h
    rw [saveAll_cons_skip (h od0 (List.mem_cons_self _ _))]
    exact ih db nid coll (fun od hod => h od (List.mem_cons_of_mem _ hod))

theorem collectChannel_extends (e : Bool) (f : Option (List ChannelOrderData))
    (ch : Channel) (db : List OrderRow) (nid : Nat) :
    ∃ ext, (collectChannel e f ch db nid).2.1 = db ++ ext := by
  match e, f with
  | true, some l =>
    obtain ⟨new, heq, _⟩ := saveAll_spec ch l db nid []
    exact ⟨new, by rw [show collectChannel true (some l) ch db nid = saveAll ch l db nid [] from rfl, heq]⟩
  | true, none => exact ⟨[], by simp [collectChannel]⟩
  | false, _ => exact ⟨[], by simp [collectChannel]⟩

theorem collectChannel_keys (l : List ChannelOrderData) (ch : Channel)
    (db : List OrderRow) (nid : Nat) : ∀ od ∈ l,
    keyExists (collectChannel true (some l) ch db nid).2.1 ch
      od.channel_order_id = true := by
  intro od h
  exact saveAll_keys ch l db nid [] od h

theorem collectChannel_skips (l : List ChannelOrderData) (ch : Channel)
    (db : List OrderRow) (nid : Nat)
    (h : ∀ od ∈ l, keyExists db ch od.channel_order_id = true) :
    collectChannel true (some l) ch db nid = ([], db, nid) := by
  show saveAll ch l db nid [] = ([], db, nid)
  exact saveAll_skips ch l db nid [] h

theorem collectChannel_disabled (f : Option (List ChannelOrderData))
    (ch : Channel) (db : List OrderRow) (nid : Nat) :
    collectChannel false f ch db nid = ([], db, nid) := by
  cases f <;> rfl

/-- C5: order ingestion is idempotent. `_save_order` skips (returning no
new row, not an error) any `(channel, channel_order_id)` pair already
persisted, and running `_collect_new_orders` a second time against the
same remote order sets collects nothing and leaves the order table
unchanged. -/
theorem order_ingestion_idempotent (cfg : ServerCfg) (db : List OrderRow)
    (nid : Nat) (nv cp : List ChannelOrderData) :
    (∀ (ch : Channel) (od : ChannelOrderData) (n : Nat),
      keyExists db ch od.channel_order_id = true →
      saveOrder db n od ch = (none, db, n)) ∧
    (collectNewOrders cfg (some nv) (some cp)
        (collectNewOrders cfg (some nv) (some cp) db nid).2.1
        (collectNewOrders cfg (some nv) (some cp) db nid).2.2).1 = [] ∧
    (collectNewOrders cfg (some nv) (some cp)
        (collectNewOrders cfg (some nv) (some cp) db nid).2.1
        (collectNewOrders cfg (some nv) (some cp) db nid).2.2).2.1 =
      (collectNewOrders cfg (some nv) (some cp) db nid).2.1 := by
  refine ⟨fun ch od n h => saveOrder_skip n h, ?_⟩
  rcases hA : collectChannel cfg.hasNaver (some nv) Channel.naver db nid with
    ⟨c1, dbA, nidA⟩
  rcases hB : collectChannel cfg.hasCoupang (some cp) Channel.coupang dbA nidA with
    ⟨c2, dbB, nidB⟩
  have hfst : collectNewOrders cfg (some nv) (some cp) db nid =
      (c1 ++ c2, dbB, nidB) := by
    simp [collectNewOrders, hA, hB]
  -- all naver keys are present in the final table of the first run
  have hnvkeys : cfg.hasNaver = true →
      ∀ od ∈ nv, keyExists dbB Channel.naver od.channel_order_id = true := by
    intro hN od hod
    obtain ⟨ext, hext⟩ := collectChannel_extends cfg.hasCoupang (some cp)
      Channel.coupang dbA nidA
    rw [hB] at hext
    have hkeyA : keyExists dbA Channel.naver od.channel_order_id = true := by
      have hk := collectChannel_keys nv Channel.naver db nid od hod
      rw [hN] at hA
      rw [hA] at hk
      exact hk
    rw [show dbB = dbA ++ ext from hext]
    exact keyExists_append ext hkeyA
  have hcpkeys : cfg.hasCoupang = true →
      ∀ od ∈ cp, keyExists dbB Channel.coupang od.channel_order_id = true := by
    intro hC od hod
    have hk := collectChannel_keys cp Channel.coupang dbA nidA od hod
    rw [hC] at hB
    rw [hB] at hk
    exact hk
  -- the second run's channel passes collect nothing
  have hsecondN : collectChannel cfg.hasNaver (some nv) Channel.naver dbB nidB =
      ([], dbB, nidB) := by
    cases hN : cfg.hasNaver with
    | false => exact collectChannel_disabled _ _ _ _
    | true => exact collectChannel_skips nv Channel.naver dbB nidB (hnvkeys hN)
  have hsecondC : collectChannel cfg.hasCoupang (some cp) Channel.coupang dbB nidB =
      ([], dbB, nidB) := by
    cases hC : cfg.hasCoupang with
    | false => exact collectChannel_disabled _ _ _ _
    | true => exact collectChannel_skips cp Channel.coupang dbB nidB (hcpkeys hC)
  have hsnd : collectNewOrders cfg (some nv) (some cp) dbB nidB = ([], dbB, nidB) := by
    simp [collectNewOrders, hsecondN, hsecondC]
  rw [hfst]
  constructor
  · show (collectNewOrders cfg (some nv) (some cp) dbB nidB).1 = []
    rw [hsnd]
  · show (collectNewOrders cfg (some nv) (some cp) dbB nidB).2.1 = dbB
    rw [hsnd]

/-! ## Per-order loop lemmas -/

/-- Whether one order's confirm → register sequence raises somewhere (the
only thing the loop's `except` branch counts as an error). -/
def raisesDuring (oo : OrderOracle) : Bool :=
  decide (oo.confirm = .exc) ||
    (decide (oo.confirm = .ok) && decide (oo.register = .exc))

/-- Whether the confirm call returned `True`. -/
def confirmOk (oo : OrderOracle) : Bool := decide (oo.confirm = .ok)

/-- Whether both the confirm and the register call returned `True`. -/
def bothOk (oo : OrderOracle) : Bool :=
  decide (oo.confirm = .ok) && decide (oo.register = .ok)

/-- Net effect of one loop iteration on the processed order's own row. -/
def rowAfter (oo : OrderOracle) (dt : String) (r : OrderRow) : OrderRow :=
  match oo.confirm with
  | .ok =>
    match oo.register with
    | .ok => { r with status := .shipped, tracking_number := some dt }
    | _ => { r with status := .confirmed }
  | _ => r

/-- The status assignments one loop iteration performs on an order whose
in-memory status is `st`. -/
def writesOf (oo : OrderOracle) (st : OrderStatus) :
    List (OrderStatus × OrderStatus) :=
  match oo.confirm with
  | .ok =>
    (st, .confirmed) ::
      (match oo.register with
       | .ok => [(OrderStatus.confirmed, OrderStatus.shipped)]
       | _ => [])
  | _ => []

/-- The row-level update one loop iteration applies across the table. -/
def updFun (cfg : ServerCfg) (orc : Nat → OrderOracle) (env : SimEnv)
    (o r : OrderRow) : OrderRow :=
  if clientPresent cfg o.channel = false then r
  else if r.id = o.id then rowAfter (orc o.id) (dummyTracking env o.id) r
  else r

/-- The row-level update the whole loop applies across the table. -/
def updAll (cfg : ServerCfg) (orc : Nat → OrderOracle) (env : SimEnv)
    (os : List OrderRow) (r : OrderRow) : OrderRow :=
  os.foldl (fun acc o => updFun cfg orc env o acc) r

theorem map_congr_fun {α β : Type} (l : List α) (f g : α → β)
    (h : ∀ a, f a = g a) : l.map f = l.map g := by
  rw [funext h]

theorem map_id_of_mem {α : Type} :
    ∀ (l : List α) (f : α → α), (∀ a ∈ l, f a = a) → l.map f = l
  | [], _, _ => rfl
  | a :: l, f, h => by
    rw [List.map_cons, h a (List.mem_cons_self _ _),
      map_id_of_mem l f (fun b hb => h b (List.mem_cons_of_mem _ hb))]

theorem filter_congr_mem {α : Type} :
    ∀ (l : List α) (f g : α → Bool), (∀ a ∈ l, f a = g a) →
      l.filter f = l.filter g
  | [], _, _, _ => rfl
  | a :: l, f, g, h => by
    have hrest := filter_congr_mem l f g
      (fun b hb => h b (List.mem_cons_of_mem _ hb))
    simp only [List.filter_cons, h a (List.mem_cons_self _ _), hrest]

theorem rowAfter_id (oo : OrderOracle) (dt : String) (r : OrderRow) :
    (rowAfter oo dt r).id = r.id := by
  unfold rowAfter
  cases oo.confirm <;> cases oo.register <;> rfl

theorem processOrder_db (cfg : ServerCfg) (env : SimEnv)
    (orc : Nat → OrderOracle) (s : LoopState) (o : OrderRow) :
    (processOrder cfg env orc s o).db = s.db.map (updFun cfg orc env o) := by
  unfold processOrder
  by_cases hp : clientPresent cfg o.channel = false
  · rw [if_pos hp]
    exact (map_id_of_mem s.db _ (fun r _ => by simp [updFun, hp])).symm
  · rw [if_neg hp]
    cases hc : (orc o.id).confirm with
    | exc =>
      show s.db = _
      refine (map_id_of_mem s.db _ (fun r _ => ?_)).symm
      simp [updFun, hp, rowAfter, hc]
    | fail =>
      show s.db = _
      refine (map_id_of_mem s.db _ (fun r _ => ?_)).symm
      simp [updFun, hp, rowAfter, hc]
    | ok =>
      cases hr : (orc o.id).register with
      | exc =>
        show setStatus s.db o.id .confirmed = _
        unfold setStatus
        refine map_congr_fun _ _ _ (fun r => ?_)
        by_cases hid : r.id = o.id <;> simp [updFun, hp, rowAfter, hc, hr, hid]
      | fail =>
        show setStatus s.db o.id .confirmed = _
        unfold setStatus
        refine map_congr_fun _ _ _ (fun r => ?_)
        by_cases hid : r.id = o.id <;> simp [updFun, hp, rowAfter, hc, hr, hid]
      | ok =>
        show setShipped (setStatus s.db o.id .confirmed) o.id
          (dummyTracking env o.id) = _
        unfold setShipped setStatus
        rw [List.map_map]
        refine map_congr_fun _ _ _ (fun r => ?_)
        by_cases hid : r.id = o.id <;>
          simp [Function.comp, updFun, hp, rowAfter, hc, hr, hid]

theorem processOrder_counts (cfg : ServerCfg) (env : SimEnv)
    (orc : Nat → OrderOracle) (s : LoopState) (o : OrderRow) :
    (processOrder cfg env orc s o).errors =
      s.errors + (if clientPresent cfg o.channel && raisesDuring (orc o.id)
        then 1 else 0) ∧
    (processOrder cfg env orc s o).confirmed =
      s.confirmed + (if clientPresent cfg o.channel && confirmOk (orc o.id)
        then 1 else 0) ∧
    (processOrder cfg env orc s o).printed =
      s.printed + (if clientPresent cfg o.channel && bothOk (orc o.id)
        then 1 else 0) ∧
    (processOrder cfg env orc s o).writes =
      s.writes ++ (if clientPresent cfg o.channel = true
        then writesOf (orc o.id) o.status else []) := by
  unfold processOrder
  by_cases hp : clientPresent cfg o.channel = false
  · rw [if_pos hp]
    have hp2 : clientPresent cfg o.channel = false := hp
    refine ⟨?_, ?_, ?_, ?_⟩ <;> simp [hp2, raisesDuring, confirmOk, bothOk]
  · rw [if_neg hp]
    have hp2 : clientPresent cfg o.channel = true := by
      cases h : clientPresent cfg o.channel
      · exact absurd h hp
      · rfl
    cases hc : (orc o.id).confirm with
    | exc =>
      refine ⟨?_, ?_, ?_, ?_⟩ <;>
        simp [hp2, raisesDuring, confirmOk, bothOk, writesOf, hc]
    | fail =>
      refine ⟨?_, ?_, ?_, ?_⟩ <;>
        simp [hp2, raisesDuring, confirmOk, bothOk, writesOf, hc]
    | ok =>
      cases hr : (orc o.id).register with
      | exc =>
        refine ⟨?_, ?_, ?_, ?_⟩ <;>
          simp [hp2, raisesDuring, confirmOk, bothOk, writesOf, hc, hr]
      | fail =>
        refine ⟨?_, ?_, ?_, ?_⟩ <;>
          simp [hp2, raisesDuring, confirmOk, bothOk, writesOf, hc, hr]
      | ok =>
        refine ⟨?_, ?_, ?_, ?_⟩ <;>
          simp [hp2, raisesDuring, confirmOk, bothOk, writesOf, hc, hr]

theorem runOrders_db (cfg : ServerCfg) (env : SimEnv) (orc : Nat → OrderOracle) :
    ∀ (os : List OrderRow) (s : LoopState),
      (runOrders cfg env orc s os).db = s.db.map (updAll cfg orc env os)
  | [], s => by
    show s.db = s.db.map (fun r => r)
    rw [map_id_of_mem s.db _ (fun r _ => rfl)]
  | o :: os, s => by
    show (runOrders cfg env orc (processOrder cfg env orc s o) os).db = _
    rw [runOrders_db cfg env orc os (processOrder cfg env orc s o),
      processOrder_db, List.map_map]
    rfl

theorem runOrders_counts (cfg : ServerCfg) (env : SimEnv)
    (orc : Nat → OrderOracle) :
    ∀ (os : List OrderRow) (s : LoopState),
      (runOrders cfg env orc s os).errors = s.errors +
        (os.filter (fun o => clientPresent cfg o.channel &&
          raisesDuring (orc o.id))).length ∧
      (runOrders cfg env orc s os).confirmed = s.confirmed +
        (os.filter (fun o => clientPresent cfg o.channel &&
          confirmOk (orc o.id))).length ∧
      (runOrders cfg env orc s os).printed = s.printed +
        (os.filter (fun o => clientPresent cfg o.channel &&
          bothOk (orc o.id))).length
  | [], s => by
    refine ⟨?_, ?_, ?_⟩ <;> rfl
  | o :: os, s => by
    obtain ⟨he, hc, hq⟩ := runOrders_counts cfg env orc os
      (processOrder cfg env orc s o)
    obtain ⟨pe, pc, pq, _⟩ := processOrder_counts cfg env orc s o
    refine ⟨?_, ?_, ?_⟩
    · show (runOrders cfg env orc (processOrder cfg env orc s o) os).errors = _
      rw [he, pe]
      by_cases h : (clientPresent cfg o.channel && raisesDuring (orc o.id)) = true
      · simp [List.filter_cons, h]
        omega
      · simp [List.filter_cons, h]
    · show (runOrders cfg env orc (processOrder cfg env orc s o) os).confirmed = _
      rw [hc, pc]
      by_cases h : (clientPresent cfg o.channel && confirmOk (orc o.id)) = true
      · simp [List.filter_cons, h]
        omega
      · simp [List.filter_cons, h]
    · show (runOrders cfg env orc (processOrder cfg env orc s o) os).printed = _
      rw [hq, pq]
      by_cases h : (clientPresent cfg o.channel && bothOk (orc o.id)) = true
      · simp [List.filter_cons, h]
        omega
      · simp [List.filter_cons, h]

theorem runOrders_writes (cfg : ServerCfg) (env : SimEnv)
    (orc : Nat → OrderOracle) :
    ∀ (os : List OrderRow) (s : LoopState),
      ∀ w ∈ (runOrders cfg env orc s os).writes,
        w ∈ s.writes ∨ ∃ o, o ∈ os ∧ w ∈ writesOf (orc o.id) o.status
  | [], s => by
    intro w hw
    exact Or.inl hw
  | o :: os, s => by
    intro w hw
    have step := runOrders_writes cfg env orc os (processOrder cfg env orc s o) w
      hw
    obtain ⟨_, _, _, pw⟩ := processOrder_counts cfg env orc s o
    rcases step with h | ⟨o2, ho2, hwo⟩
    · rw [pw] at h
      rcases List.mem_append.mp h with h | h
      · exact Or.inl h
      · by_cases hp : clientPresent cfg o.channel = true
        · rw [if_pos hp] at h
          exact Or.inr ⟨o, List.mem_cons_self _ _, h⟩
        · rw [if_neg hp] at h
          cases h
    · exact Or.inr ⟨o2, List.mem_cons_of_mem _ ho2, hwo⟩

theorem updAll_not_mem (cfg : ServerCfg) (orc : Nat → OrderOracle) (env : SimEnv) :
    ∀ (os : List OrderRow) (r : OrderRow),
      (∀ o ∈ os, o.id ≠ r.id) → updAll cfg orc env os r = r
  | [], r, _ => rfl
  | o :: os, r, h => by
    show updAll cfg orc env os (updFun cfg orc env o r) = r
    have h0 : updFun cfg orc env o r = r := by
      unfold updFun
      by_cases hp : clientPresent cfg o.channel = false
      · rw [if_pos hp]
      · rw [if_neg hp, if_neg]
        intro hid
        exact h o (List.mem_cons_self _ _) hid.symm
    rw [h0]
    exact updAll_not_mem cfg orc env os r
      (fun o2 ho2 => h o2 (List.mem_cons_of_mem _ ho2))

theorem updAll_self (cfg : ServerCfg) (orc : Nat → OrderOracle) (env : SimEnv) :
    ∀ (os : List OrderRow),
      os.Pairwise (fun a b => a.id ≠ b.id) →
      ∀ o ∈ os, clientPresent cfg o.channel = true →
        updAll cfg orc env os o =
          rowAfter (orc o.id) (dummyTracking env o.id) o
  | [], _, o, ho, _ => absurd ho (List.not_mem_nil o)
  | o0 :: os, hpw, o, ho, hp => by
    have hpw2 := (List.pairwise_cons.mp hpw).2
    have hhead := (List.pairwise_cons.mp hpw).1
    show updAll cfg orc env os (updFun cfg orc env o0 o) = _
    rcases List.mem_cons.mp ho with h | h
    · subst h
      have h0 : updFun cfg orc env o o =
          rowAfter (orc o.id) (dummyTracking env o.id) o := by
        unfold updFun
        rw [if_neg (by rw [hp]; intro hcon; cases hcon), if_pos rfl]
      rw [h0]
      refine updAll_not_mem cfg orc env os _ (fun o2 ho2 => ?_)
      rw [rowAfter_id]
      exact Ne.symm (hhead o2 ho2)
    · have hne : o0.id ≠ o.id := hhead o h
      have h0 : updFun cfg orc env o0 o = o := by
        unfold updFun
        by_cases hp0 : clientPresent cfg o0.channel = false
        · rw [if_pos hp0]
        · rw [if_neg hp0, if_neg (fun hid => hne hid.symm)]
      rw [h0]
      exact updAll_self cfg orc env os hpw2 o h hp

/-! ## Collection and batch-level specifications -/

theorem map_congr_mem {α β : Type} :
    ∀ (l : List α) (f g : α → β), (∀ a ∈ l, f a = g a) → l.map f = l.map g
  | [], _, _, _ => rfl
  | a :: l, f, g, h => by
    rw [List.map_cons, List.map_cons, h a (List.mem_cons_self _ _),
      map_congr_mem l f g (fun b hb => h b (List.mem_cons_of_mem _ hb))]

theorem collectChannel_spec (e : Bool) (f : Option (List ChannelOrderData))
    (ch : Channel) (db : List OrderRow) (nid : Nat) :
    ∃ new : List OrderRow,
      collectChannel e f ch db nid = (new, db ++ new, nid + new.length) ∧
      (∀ r ∈ new, r.status = .new ∧ r.tracking_number = none ∧ r.channel = ch ∧
        nid ≤ r.id ∧ r.id < nid + new.length) ∧
      new.Pairwise (fun a b => a.id ≠ b.id) ∧
      (new = [] ∨ e = true) := by
  match e, f with
  | true, some l =>
    obtain ⟨new, heq, hidx⟩ := saveAll_spec ch l db nid []
    refine ⟨new, ?_, ?_, ?_, Or.inr rfl⟩
    · show saveAll ch l db nid [] = _
      rw [heq]
      rfl
    · intro r hr
      obtain ⟨i, hi⟩ := List.mem_iff_get.mp hr
      obtain ⟨h1, h2, h3, h4⟩ := hidx i
      rw [← hi]
      exact ⟨h2, h4, h3, by omega, by have := i.isLt; omega⟩
    · rw [List.pairwise_iff_get]
      intro i j hij
      have hi := (hidx i).1
      have hj := (hidx j).1
      intro hcon
      rw [hi, hj] at hcon
      omega
  | true, none =>
    refine ⟨[], by simp [collectChannel], ?_, List.Pairwise.nil, Or.inl rfl⟩
    intro r hr
    cases hr
  | false, _ =>
    refine ⟨[], by simp [collectChannel], ?_, List.Pairwise.nil, Or.inl rfl⟩
    intro r hr
    cases hr

theorem collectNewOrders_spec (cfg : ServerCfg)
    (nf cf : Option (List ChannelOrderData)) (db : List OrderRow) (nid : Nat) :
    ∃ coll : List OrderRow,
      collectNewOrders cfg nf cf db nid = (coll, db ++ coll, nid + coll.length) ∧
      (∀ r ∈ coll, r.status = .new ∧ r.tracking_number = none ∧
        clientPresent cfg r.channel = true ∧ nid ≤ r.id) ∧
      coll.Pairwise (fun a b => a.id ≠ b.id) := by
  obtain ⟨n1, h1, hm1, hp1, he1⟩ := collectChannel_spec cfg.hasNaver nf .naver db nid
  obtain ⟨n2, h2, hm2, hp2, he2⟩ := collectChannel_spec cfg.hasCoupang cf .coupang
    (db ++ n1) (nid + n1.length)
  refine ⟨n1 ++ n2, ?_, ?_, ?_⟩
  · show (collectNewOrders cfg nf cf db nid) = _
    unfold collectNewOrders
    rw [h1]
    show (n1 ++ (collectChannel cfg.hasCoupang cf Channel.coupang (db ++ n1)
        (nid + n1.length)).1,
      (collectChannel cfg.hasCoupang cf Channel.coupang (db ++ n1)
        (nid + n1.length)).2.1,
      (collectChannel cfg.hasCoupang cf Channel.coupang (db ++ n1)
        (nid + n1.length)).2.2) = _
    rw [h2]
    have e1 : (db ++ n1) ++ n2 = db ++ (n1 ++ n2) := by
      rw [List.append_assoc]
    have e2 : nid + n1.length + n2.length = nid + (n1 ++ n2).length := by
      rw [List.length_append]
      omega
    rw [e1, e2]
  · intro r hr
    rcases List.mem_append.mp hr with h | h
    · obtain ⟨ha, hb, hc, hd, _⟩ := hm1 r h
      have hN : cfg.hasNaver = true := by
        rcases he1 with he | he
        · rw [he] at h
          cases h
        · exact he
      refine ⟨ha, hb, ?_, hd⟩
      rw [hc]
      show cfg.hasNaver = true
      exact hN
    · obtain ⟨ha, hb, hc, hd, _⟩ := hm2 r h
      have hC : cfg.hasCoupang = true := by
        rcases he2 with he | he
        · rw [he] at h
          cases h
        · exact he
      refine ⟨ha, hb, ?_, by omega⟩
      rw [hc]
      show cfg.hasCoupang = true
      exact hC
  · rw [List.pairwise_append]
    refine ⟨hp1, hp2, ?_⟩
    intro a ha b hb
    have hA := (hm1 a ha).2.2.2.2
    have hB := (hm2 b hb).2.2.2
    omega

theorem runBatch_proj (cfg : ServerCfg) (st : ServerState) (bn : Nat)
    (orc : BatchOracle) (env : SimEnv) :
    (runBatchProcessing cfg st bn orc env).collected =
      (collectNewOrders cfg orc.naverFetch orc.coupangFetch st.db st.nextId).1.length ∧
    (runBatchProcessing cfg st bn orc env).errors =
      (runOrders cfg env orc.step
        { db := (collectNewOrders cfg orc.naverFetch orc.coupangFetch st.db
            st.nextId).2.1,
          confirmed := 0, printed := 0, errors := 0, writes := [] }
        (collectNewOrders cfg orc.naverFetch orc.coupangFetch st.db
          st.nextId).1).errors ∧
    (runBatchProcessing cfg st bn orc env).confirmed =
      (runOrders cfg env orc.step
        { db := (collectNewOrders cfg orc.naverFetch orc.coupangFetch st.db
            st.nextId).2.1,
          confirmed := 0, printed := 0, errors := 0, writes := [] }
        (collectNewOrders cfg orc.naverFetch orc.coupangFetch st.db
          st.nextId).1).confirmed ∧
    (runBatchProcessing cfg st bn orc env).printed =
      (runOrders cfg env orc.step
        { db := (collectNewOrders cfg orc.naverFetch orc.coupangFetch st.db
            st.nextId).2.1,
          confirmed := 0, printed := 0, errors := 0, writes := [] }
        (collectNewOrders cfg orc.naverFetch orc.coupangFetch st.db
          st.nextId).1).printed ∧
    (runBatchProcessing cfg st bn orc env).state.db =
      (runOrders cfg env orc.step
        { db := (collectNewOrders cfg orc.naverFetch orc.coupangFetch st.db
            st.nextId).2.1,
          confirmed := 0, printed := 0, errors := 0, writes := [] }
        (collectNewOrders cfg orc.naverFetch orc.coupangFetch st.db
          st.nextId).1).db ∧
    (runBatchProcessing cfg st bn orc env).writes =
      (runOrders cfg env orc.step
        { db := (collectNewOrders cfg orc.naverFetch orc.coupangFetch st.db
            st.nextId).2.1,
          confirmed := 0, printed := 0, errors := 0, writes := [] }
        (collectNewOrders cfg orc.naverFetch orc.coupangFetch st.db
          st.nextId).1).writes := by
  unfold runBatchProcessing
  by_cases h : (cfg.hasNotifier && orc.notifyRaises) = true
  · rw [if_pos h]
    exact ⟨rfl, rfl, rfl, rfl, rfl, rfl⟩
  · rw [if_neg h]
    exact ⟨rfl, rfl, rfl, rfl, rfl, rfl⟩

/-- The combined behavioural specification of one batch run over a table
whose existing ids are below the autoincrement counter. -/
theorem runBatch_spec (cfg : ServerCfg) (st : ServerState) (bn : Nat)
    (orc : BatchOracle) (env : SimEnv)
    (hfresh : ∀ r ∈ st.db, r.id < st.nextId) :
    ∃ coll : List OrderRow,
      collectNewOrders cfg orc.naverFetch orc.coupangFetch st.db st.nextId =
        (coll, st.db ++ coll, st.nextId + coll.length) ∧
      (∀ r ∈ coll, r.status = .new ∧ r.tracking_number = none ∧
        clientPresent cfg r.channel = true) ∧
      (runBatchProcessing cfg st bn orc env).collected = coll.length ∧
      (runBatchProcessing cfg st bn orc env).errors =
        (coll.filter (fun o => raisesDuring (orc.step o.id))).length ∧
      (runBatchProcessing cfg st bn orc env).confirmed =
        (coll.filter (fun o => confirmOk (orc.step o.id))).length ∧
      (runBatchProcessing cfg st bn orc env).printed =
        (coll.filter (fun o => bothOk (orc.step o.id))).length ∧
      (runBatchProcessing cfg st bn orc env).state.db =
        st.db ++ coll.map (fun o =>
          rowAfter (orc.step o.id) (dummyTracking env o.id) o) ∧
      (∀ w ∈ (runBatchProcessing cfg st bn orc env).writes,
        ∃ o, o ∈ coll ∧ w ∈ writesOf (orc.step o.id) OrderStatus.new) := by
  obtain ⟨coll, hcol, hmem, hpw⟩ :=
    collectNewOrders_spec cfg orc.naverFetch orc.coupangFetch st.db st.nextId
  obtain ⟨j1, j2, j3, j4, j5, j6⟩ := runBatch_proj cfg st bn orc env
  obtain ⟨k1, k2, k3⟩ := runOrders_counts cfg env orc.step coll
    { db := (collectNewOrders cfg orc.naverFetch orc.coupangFetch st.db
        st.nextId).2.1,
      confirmed := 0, printed := 0, errors := 0, writes := [] }
  have hcoll1 : (collectNewOrders cfg orc.naverFetch orc.coupangFetch st.db
      st.nextId).1 = coll := by
    rw [hcol]
  have hcolldb : (collectNewOrders cfg orc.naverFetch orc.coupangFetch st.db
      st.nextId).2.1 = st.db ++ coll := by
    rw [hcol]
  refine ⟨coll, hcol, fun r hr => ⟨(hmem r hr).1, (hmem r hr).2.1,
    (hmem r hr).2.2.1⟩, ?_, ?_, ?_, ?_, ?_, ?_⟩
  · rw [j1, hcoll1]
  · rw [j2, hcoll1, k1]
    have hfc : (coll.filter (fun o => clientPresent cfg o.channel &&
        raisesDuring (orc.step o.id))) =
        (coll.filter (fun o => raisesDuring (orc.step o.id))) := by
      refine filter_congr_mem coll _ _ (fun o ho => ?_)
      rw [(hmem o ho).2.2.1, Bool.true_and]
    rw [hfc]
    show 0 + (coll.filter (fun o => raisesDuring (orc.step o.id))).length = _
    omega
  · rw [j3, hcoll1, k2]
    have hfc : (coll.filter (fun o => clientPresent cfg o.channel &&
        confirmOk (orc.step o.id))) =
        (coll.filter (fun o => confirmOk (orc.step o.id))) := by
      refine filter_congr_mem coll _ _ (fun o ho => ?_)
      rw [(hmem o ho).2.2.1, Bool.true_and]
    rw [hfc]
    show 0 + (coll.filter (fun o => confirmOk (orc.step o.id))).length = _
    omega
  · rw [j4, hcoll1, k3]
    have hfc : (coll.filter (fun o => clientPresent cfg o.channel &&
        bothOk (orc.step o.id))) =
        (coll.filter (fun o => bothOk (orc.step o.id))) := by
      refine filter_congr_mem coll _ _ (fun o ho => ?_)
      rw [(hmem o ho).2.2.1, Bool.true_and]
    rw [hfc]
    show 0 + (coll.filter (fun o => bothOk (orc.step o.id))).length = _
    omega
  · rw [j5, hcoll1, runOrders_db, hcolldb]
    show (st.db ++ coll).map (updAll cfg orc.step env coll) = _
    rw [List.map_append]
    have hleft : st.db.map (updAll cfg orc.step env coll) = st.db := by
      refine map_id_of_mem _ _ (fun r hr => ?_)
      refine updAll_not_mem cfg orc.step env coll r (fun o ho => ?_)
      have h1 := (hmem o ho).2.2.2
      have h2 := hfresh r hr
      omega
    have hright : coll.map (updAll cfg orc.step env coll) =
        coll.map (fun o => rowAfter (orc.step o.id) (dummyTracking env o.id) o) := by
      refine map_congr_mem _ _ _ (fun o ho => ?_)
      exact updAll_self cfg orc.step env coll hpw o ho (hmem o ho).2.2.1
    rw [hleft, hright]
  · intro w hw
    rw [j6, hcoll1] at hw
    have := runOrders_writes cfg env orc.step coll
      { db := (collectNewOrders cfg orc.naverFetch orc.coupangFetch st.db
          st.nextId).2.1,
        confirmed := 0, printed := 0, errors := 0, writes := [] } w hw
    rcases this with h | ⟨o, ho, hwo⟩
    · cases h
    · refine ⟨o, ho, ?_⟩
      rw [(hmem o ho).1] at hwo
      exact hwo

/-! ## Claim theorems about the batch orchestrator -/

/-- Concrete batch configuration: Naver client only, no notifier. -/
def c4cfg : ServerCfg := ⟨true, false, false⟩

/-- Concrete server state: empty tables, autoincrement counter at 1. -/
def c4st : ServerState := ⟨[], 1, []⟩

/-- Concrete oracle: one remote Naver order whose confirm call returns
`False` (the channel clients' behaviour on any remote error). -/
def c4orc : BatchOracle :=
  ⟨some [⟨"N1", "구매자", "수령인"⟩], none, fun _ => ⟨.fail, .ok⟩, false⟩

/-- C4 counterexample: a batch over one order whose confirm step fails (the
channel client returns `False`, its behaviour on any remote error) leaves
the order at `new` but reports an aggregate error count of 0, not 1: an
order that fails a step without raising is not counted as an error. -/
theorem batch_error_accounting_counterexample :
    (runBatchProcessing c4cfg c4st 1 c4orc sampleEnv).collected = 1 ∧
    (runBatchProcessing c4cfg c4st 1 c4orc sampleEnv).errors = 0 ∧
    (runBatchProcessing c4cfg c4st 1 c4orc sampleEnv).state.db =
      [⟨1, .naver, "N1", .new, "구매자", "수령인", none⟩] := by
  refine ⟨?_, ?_, ?_⟩ <;> decide

/-- C4 (amended): per-order failures are isolated — a batch run processes
every collected order; an order whose confirm step fails is left at `new`
and the others still reach `shipped` — but only a step that raises an
exception increments the error count: the aggregate `errors` equals the
number of collected orders whose confirm or register call raised, while an
order whose step merely returned `False` is left behind without being
counted. -/
theorem per_order_failure_isolation (cfg : ServerCfg) (st : ServerState)
    (bn : Nat) (orc : BatchOracle) (env : SimEnv)
    (hfresh : ∀ r ∈ st.db, r.id < st.nextId) :
    ∃ coll : List OrderRow,
      collectNewOrders cfg orc.naverFetch orc.coupangFetch st.db st.nextId =
        (coll, st.db ++ coll, st.nextId + coll.length) ∧
      (runBatchProcessing cfg st bn orc env).errors =
        (coll.filter (fun o => raisesDuring (orc.step o.id))).length ∧
      (runBatchProcessing cfg st bn orc env).state.db =
        st.db ++ coll.map (fun o =>
          rowAfter (orc.step o.id) (dummyTracking env o.id) o) ∧
      (∀ o ∈ coll, (orc.step o.id).confirm ≠ .ok →
        rowAfter (orc.step o.id) (dummyTracking env o.id) o = o ∧
        o.status = .new) ∧
      (∀ o ∈ coll, bothOk (orc.step o.id) = true →
        (rowAfter (orc.step o.id) (dummyTracking env o.id) o).status =
          .shipped ∧
        (rowAfter (orc.step o.id) (dummyTracking env o.id) o).tracking_number =
          some (dummyTracking env o.id)) := by
  obtain ⟨coll, hcol, hmem, _, herr, _, _, hdb, _⟩ :=
    runBatch_spec cfg st bn orc env hfresh
  refine ⟨coll, hcol, herr, hdb, ?_, ?_⟩
  · intro o ho hne
    refine ⟨?_, (hmem o ho).1⟩
    unfold rowAfter
    cases hc : (orc.step o.id).confirm with
    | ok => exact absurd hc hne
    | fail => rfl
    | exc => rfl
  · intro o ho hbo
    have hc : (orc.step o.id).confirm = .ok := by
      unfold bothOk at hbo
      rcases Bool.and_eq_true_iff.mp hbo with ⟨h1, _⟩
      exact of_decide_eq_true h1
    have hr : (orc.step o.id).register = .ok := by
      unfold bothOk at hbo
      rcases Bool.and_eq_true_iff.mp hbo with ⟨_, h2⟩
      exact of_decide_eq_true h2
    unfold rowAfter
    rw [hc, hr]
    exact ⟨rfl, rfl⟩

/-- Witness for the amended C4 theorem at a concrete input. -/
theorem per_order_failure_isolation_witness :
    (∀ r ∈ c4st.db, r.id < c4st.nextId) ∧
    (runBatchProcessing c4cfg c4st 1 c4orc sampleEnv).errors =
      ((collectNewOrders c4cfg c4orc.naverFetch c4orc.coupangFetch c4st.db
        c4st.nextId).1.filter
          (fun o => raisesDuring (c4orc.step o.id))).length := by
  refine ⟨by decide, ?_⟩
  obtain ⟨coll, hc, he, _⟩ :=
    per_order_failure_isolation c4cfg c4st 1 c4orc sampleEnv (by decide)
  have h1 : (collectNewOrders c4cfg c4orc.naverFetch c4orc.coupangFetch
      c4st.db c4st.nextId).1 = coll := by
    rw [hc]
  rw [h1]
  exact he

/-- Concrete oracle whose notification step raises. -/
def c7orc : BatchOracle := ⟨none, none, fun _ => ⟨.ok, .ok⟩, true⟩

/-- Concrete oracle whose notification step does not raise. -/
def c7okOrc : BatchOracle := ⟨none, none, fun _ => ⟨.ok, .ok⟩, false⟩

/-- C7 counterexample: when the summary-notification step raises, the batch
run completes (the exception is caught at run level and an error
notification goes out) but NO `ProcessingLog` row is persisted, because
the notification is emitted before the log row is saved inside the same
try/except. -/
theorem processing_log_counterexample :
    (runBatchProcessing ⟨false, false, true⟩ c4st 2 c7orc sampleEnv).state.logs
      = [] ∧
    (runBatchProcessing ⟨false, false, true⟩ c4st 2 c7orc sampleEnv).notified
      = false ∧
    (runBatchProcessing ⟨false, false, true⟩ c4st 2 c7orc
      sampleEnv).errorNotified = true := by
  refine ⟨?_, ?_, ?_⟩ <;> decide

/-- C7 (amended): when the notification step completes without raising (or
no notifier is configured), the batch run appends exactly one
`ProcessingLog` row carrying the run's aggregate counts; but because the
notification precedes log persistence inside the same run-level try/except,
a raising notifier means the run completes without any `ProcessingLog` row
(an error notification is emitted instead). -/
theorem processing_log_persistence (cfg : ServerCfg) (st : ServerState)
    (bn : Nat) (orc : BatchOracle) (env : SimEnv) :
    ((cfg.hasNotifier && orc.notifyRaises) = false →
      (runBatchProcessing cfg st bn orc env).state.logs = st.logs ++
        [{ batch_number := bn
           orders_collected := (runBatchProcessing cfg st bn orc env).collected
           orders_confirmed := (runBatchProcessing cfg st bn orc env).confirmed
           invoices_printed := (runBatchProcessing cfg st bn orc env).printed
           errors := (runBatchProcessing cfg st bn orc env).errors }]) ∧
    ((cfg.hasNotifier && orc.notifyRaises) = true →
      (runBatchProcessing cfg st bn orc env).state.logs = st.logs ∧
      (runBatchProcessing cfg st bn orc env).errorNotified = true) := by
  constructor
  · intro h
    show (runBatchProcessing cfg st bn orc env).state.logs = _
    unfold runBatchProcessing
    rw [if_neg (by rw [h]; intro hcon; cases hcon)]
  · intro h
    unfold runBatchProcessing
    rw [if_pos h]
    exact ⟨rfl, rfl⟩

/-- Witness for the C7 theorem at a concrete input. -/
theorem processing_log_persistence_witness :
    ((⟨false, false, false⟩ : ServerCfg).hasNotifier && c7okOrc.notifyRaises)
      = false ∧
    (runBatchProcessing ⟨false, false, false⟩ c4st 1 c7okOrc
      sampleEnv).state.logs = c4st.logs ++
      [{ batch_number := 1
         orders_collected := (runBatchProcessing ⟨false, false, false⟩ c4st 1
           c7okOrc sampleEnv).collected
         orders_confirmed := (runBatchProcessing ⟨false, false, false⟩ c4st 1
           c7okOrc sampleEnv).confirmed
         invoices_printed := (runBatchProcessing ⟨false, false, false⟩ c4st 1
           c7okOrc sampleEnv).printed
         errors := (runBatchProcessing ⟨false, false, false⟩ c4st 1 c7okOrc
           sampleEnv).errors }] :=
  ⟨by decide,
   (processing_log_persistence ⟨false, false, false⟩ c4st 1 c7okOrc
     sampleEnv).1 (by decide)⟩

theorem writesOf_new_shape (oo : OrderOracle) :
    ∀ w ∈ writesOf oo OrderStatus.new,
      (w.1 = OrderStatus.new ∧ w.2 = OrderStatus.confirmed) ∨
      (w.1 = OrderStatus.confirmed ∧ w.2 = OrderStatus.shipped) := by
  rcases oo with ⟨c, r⟩
  cases c <;> cases r <;> decide

/-- Concrete server state holding one already-shipped order. -/
def c8st : ServerState := ⟨[⟨0, .naver, "OLD", .shipped, "", "", none⟩], 1, []⟩

/-- Concrete oracle: one fresh remote Naver order, everything succeeds. -/
def c8orc : BatchOracle :=
  ⟨some [⟨"N2", "", ""⟩], none, fun _ => ⟨.ok, .ok⟩, false⟩

/-- C8: status monotonicity. Every status assignment a batch run performs
is either `new → confirmed` or `confirmed → shipped` — strictly forward
along the lifecycle chain — and every pre-existing order row survives the
run unchanged; no operation ever regresses an order's status. -/
theorem order_status_monotonic (cfg : ServerCfg) (st : ServerState) (bn : Nat)
    (orc : BatchOracle) (env : SimEnv)
    (hfresh : ∀ r ∈ st.db, r.id < st.nextId) :
    (∀ w ∈ (runBatchProcessing cfg st bn orc env).writes,
      (w.1 = OrderStatus.new ∧ w.2 = OrderStatus.confirmed) ∨
      (w.1 = OrderStatus.confirmed ∧ w.2 = OrderStatus.shipped)) ∧
    (∀ w ∈ (runBatchProcessing cfg st bn orc env).writes,
      w.1.rank < w.2.rank) ∧
    (∀ r ∈ st.db, r ∈ (runBatchProcessing cfg st bn orc env).state.db) := by
  obtain ⟨coll, hcol, hmem, _, _, _, _, hdb, hw⟩ :=
    runBatch_spec cfg st bn orc env hfresh
  have hshape : ∀ w ∈ (runBatchProcessing cfg st bn orc env).writes,
      (w.1 = OrderStatus.new ∧ w.2 = OrderStatus.confirmed) ∨
      (w.1 = OrderStatus.confirmed ∧ w.2 = OrderStatus.shipped) := by
    intro w hmemw
    obtain ⟨o, _, hwo⟩ := hw w hmemw
    exact writesOf_new_shape (orc.step o.id) w hwo
  refine ⟨hshape, ?_, ?_⟩
  · intro w hmemw
    rcases hshape w hmemw with ⟨h1, h2⟩ | ⟨h1, h2⟩ <;> rw [h1, h2] <;> decide
  · intro r hr
    rw [hdb]
    exact List.mem_append_left _ hr

/-- Witness for the C8 theorem at a concrete input. -/
theorem order_status_monotonic_witness :
    (∀ r ∈ c8st.db, r.id < c8st.nextId) ∧
    (⟨0, .naver, "OLD", .shipped, "", "", none⟩ : OrderRow) ∈
      (runBatchProcessing ⟨true, true, true⟩ c8st 1 c8orc
        sampleEnv).state.db :=
  ⟨by decide,
   (order_status_monotonic ⟨true, true, true⟩ c8st 1 c8orc sampleEnv
     (by decide)).2.2 ⟨0, .naver, "OLD", .shipped, "", "", none⟩ (by decide)⟩

/-- Witness for C5: the skip branch of `_save_order` fires at a concrete
already-ingested key. -/
theorem order_ingestion_idempotent_witness :
    keyExists [⟨1, .naver, "A", .new, "", "", none⟩] .naver "A" = true ∧
    saveOrder [⟨1, .naver, "A", .new, "", "", none⟩] 5 ⟨"A", "", ""⟩ .naver =
      (none, [⟨1, .naver, "A", .new, "", "", none⟩], 5) :=
  ⟨by decide,
   (order_ingestion_idempotent ⟨true, true, true⟩
     [⟨1, .naver, "A", .new, "", "", none⟩] 1 [] []).1 .naver ⟨"A", "", ""⟩ 5
     (by decide)⟩

/-! ## ShippingManager (src/src/shipping/manager.py) -/

/-- `SenderInfo` (shipping/carriers package). -/
structure SenderInfo where
  name : String
  phone : String
  zipcode : String
  address : String
  detail_address : String := ""
deriving DecidableEq, Repr

/-- `SenderInfo.full_address`. -/
def SenderInfo.full_address (s : SenderInfo) : String :=
  if s.detail_address = "" then s.address
  else s.address ++ " " ++ s.detail_address

/-- A `ShippingManager`: the carrier-client registry (client object
identities kept opaque as numbers), the tenant's `default_carrier` setting
string and the sender info. -/
structure ShippingManagerM where
  carriers : CarrierType → Option Nat
  default_carrier_setting : Option String
  sender_info : Option SenderInfo

/-- The `default_carrier` property: `CarrierType(settings.default_carrier
or "cj")`; `none` models the `ValueError` the enum constructor raises on an
unknown code. -/
def ShippingManagerM.defaultCarrier (m : ShippingManagerM) : Option CarrierType :=
  carrierTypeOfString
    (match m.default_carrier_setting with
     | none => "cj"
     | some s => if s = "" then "cj" else s)

/-- `get_carrier`: a `None` code resolves to the default carrier
(propagating its `ValueError` when the configured default is invalid),
followed by a plain dictionary lookup that yields `None` for a carrier
with no registered client. -/
def ShippingManagerM.get_carrier (m : ShippingManagerM) :
    Option CarrierType → Except String (Option Nat)
  | some ct => .ok (m.carriers ct)
  | none =>
    match m.defaultCarrier with
    | some ct => .ok (m.carriers ct)
    | none => .error "ValueError"

/-- An `OrderItem` row as `request_invoice_for_order` reads it. -/
structure OrderItemM where
  product_name : String
  quantity : Nat
deriving DecidableEq, Repr

/-- The order fields `request_invoice_for_order` reads. -/
structure DbOrderM where
  id : Nat
  channel_order_id : String
  receiver_name : String
  receiver_phone : String
  receiver_address : String
  receiver_zipcode : Option String := none
  buyer_memo : Option String := none
  items : List OrderItemM := []
deriving DecidableEq, Repr

/-- The product-description rule: one line item → its name; several →
`"{first} 외 {n-1}건"`; none → `"상품"`. -/
def productNameOf : List OrderItemM → String
  | [] => "상품"
  | [it] => it.product_name
  | it :: rest => it.product_name ++ " 외 " ++ pyStr rest.length ++ "건"

/-- The quantity rule: sum of line-item quantities, defaulting to 1. -/
def quantityOf (items : List OrderItemM) : Nat :=
  match items with
  | [] => 1
  | _ => (items.map (fun it => it.quantity)).sum

/-- `request_invoice_for_order`: fail fast with a structured failure
response (never an exception) when sender info is missing or the resolved
carrier has no registered client; otherwise build the normalized request
and delegate to the client, modelled by the `invoke` oracle keyed by the
opaque client id. -/
def ShippingManagerM.request_invoice_for_order (m : ShippingManagerM)
    (invoke : Nat → ShippingRequest → ShippingResponse) (o : DbOrderM)
    (ct : Option CarrierType) : Except String ShippingResponse :=
  match m.sender_info with
  | none =>
    .ok { success := false, error := some "발송인 정보가 설정되지 않았습니다." }
  | some si =>
    match m.get_carrier ct with
    | .error e => .error e
    | .ok none =>
      match ct with
      | some c =>
        .ok { success := false
              error := some (c.displayName ++ " 택배사가 설정되지 않았습니다.") }
      | none =>
        match m.defaultCarrier with
        | some c =>
          .ok { success := false
                error := some (c.displayName ++ " 택배사가 설정되지 않았습니다.") }
        | none => .error "ValueError"
    | .ok (some cid) =>
      .ok (invoke cid
        { sender_name := si.name
          sender_phone := si.phone
          sender_zipcode := si.zipcode
          sender_address := si.full_address
          receiver_name := o.receiver_name
          receiver_phone := o.receiver_phone
          receiver_address := o.receiver_address
          receiver_zipcode := (match o.receiver_zipcode with
            | none => ""
            | some z => z)
          product_name := productNameOf o.items
          quantity := quantityOf o.items
          memo := o.buyer_memo
          order_id := some (pyStr o.id)
          channel_order_id := some o.channel_order_id })

/-- C6: carrier routing. `get_carrier(None)` returns the very client the
tenant's configured default carrier code resolves to; `get_carrier(c)` for
a code with no registered client returns `None`; and
`request_invoice_for_order` with such an unconfigured code returns a
`success=false` response with a non-empty error instead of raising. -/
theorem carrier_routing (m : ShippingManagerM) (d : CarrierType)
    (hd : m.defaultCarrier = some d) :
    m.get_carrier none = .ok (m.carriers d) ∧
    m.get_carrier (some d) = .ok (m.carriers d) ∧
    (∀ c, m.carriers c = none → m.get_carrier (some c) = .ok none) ∧
    (∀ invoke o c, m.carriers c = none →
      ∃ r : ShippingResponse,
        m.request_invoice_for_order invoke o (some c) = .ok r ∧
        r.success = false ∧ ∃ msg, r.error = some msg ∧ msg ≠ "") := by
  refine ⟨?_, rfl, ?_, ?_⟩
  · show (match m.defaultCarrier with
      | some ct => Except.ok (m.carriers ct)
      | none => Except.error "ValueError") = _
    rw [hd]
  · intro c hc
    show Except.ok (m.carriers c) = _
    rw [hc]
  · intro invoke o c hc
    unfold ShippingManagerM.request_invoice_for_order
    match hsi : m.sender_info with
    | none =>
      exact ⟨_, rfl, rfl, "발송인 정보가 설정되지 않았습니다.", rfl, by decide⟩
    | some si =>
      have hg : m.get_carrier (some c) = .ok none := by
        show Except.ok (m.carriers c) = _
        rw [hc]
      rw [hg]
      refine ⟨_, rfl, rfl, c.displayName ++ " 택배사가 설정되지 않았습니다.",
        rfl, ?_⟩
      intro hcon
      have hl : (c.displayName ++ " 택배사가 설정되지 않았습니다.").length = 0 := by
        rw [hcon]
        rfl
      rw [String.length_append] at hl
      have hp : 0 < (" 택배사가 설정되지 않았습니다." : String).length := by decide
      omega

/-- A concrete manager with no registered clients and default code "cj". -/
def c6m : ShippingManagerM := ⟨fun _ => none, some "cj", none⟩

/-- Witness for C6: the default-carrier hypothesis holds at a concrete
manager. -/
theorem carrier_routing_witness :
    c6m.defaultCarrier = some CarrierType.cj ∧
    c6m.get_carrier none = .ok (c6m.carriers CarrierType.cj) :=
  ⟨by decide, (carrier_routing c6m .cj (by decide)).1⟩

/-! ## Public tool interface (src/tools/shipping.py, src/auth.py) -/

/-- Python truthiness of an optional string (`None` and `""` are falsy). -/
def truthy : Option String → Bool
  | none => false
  | some s => !(decide (s = ""))

/-- Python `x or ""` on an optional string. -/
def pyGetD : Option String → String
  | none => ""
  | some s => s

/-- The per-tenant credential bag (`UserCredentials` in src/auth.py),
reduced to the fields the shipping tools read. -/
structure UserCredentialsM where
  naver_client_id : Option String := none
  naver_client_secret : Option String := none
  naver_seller_id : Option String := none
  coupang_vendor_id : Option String := none
  coupang_access_key : Option String := none
  coupang_secret_key : Option String := none
  cj_customer_id : Option String := none
  cj_api_key : Option String := none
  hanjin_customer_id : Option String := none
  hanjin_api_key : Option String := none
  lotte_customer_id : Option String := none
  lotte_api_key : Option String := none
  logen_customer_id : Option String := none
  logen_api_key : Option String := none
  epost_customer_id : Option String := none
  epost_api_key : Option String := none
  sender_name : Option String := none
  sender_phone : Option String := none
  sender_zipcode : Option String := none
  sender_address : Option String := none
  default_carrier : String := "cj"
deriving DecidableEq, Repr

/-- `sender_configured`: `all([sender_name, sender_phone, sender_address])`
(the zipcode is not required). -/
def UserCredentialsM.sender_configured (c : UserCredentialsM) : Bool :=
  truthy c.sender_name && truthy c.sender_phone && truthy c.sender_address

/-- `naver_configured`. -/
def UserCredentialsM.naver_configured (c : UserCredentialsM) : Bool :=
  truthy c.naver_client_id && truthy c.naver_client_secret &&
    truthy c.naver_seller_id

/-- `coupang_configured`. -/
def UserCredentialsM.coupang_configured (c : UserCredentialsM) : Bool :=
  truthy c.coupang_vendor_id && truthy c.coupang_access_key &&
    truthy c.coupang_secret_key

/-- `_get_carrier_client`: builds the flat client for the resolved carrier
from the credential bag (`creds.X_customer_id or ""`, `creds.X_api_key or
""`); for a `CarrierType` value this never returns `None`. -/
def toolCarrierClient (ct : CarrierType) (creds : UserCredentialsM) : FlatClient :=
  match ct with
  | .cj => ⟨.cj, pyGetD creds.cj_customer_id, pyGetD creds.cj_api_key⟩
  | .hanjin => ⟨.hanjin, pyGetD creds.hanjin_customer_id,
      pyGetD creds.hanjin_api_key⟩
  | .lotte => ⟨.lotte, pyGetD creds.lotte_customer_id,
      pyGetD creds.lotte_api_key⟩
  | .logen => ⟨.logen, pyGetD creds.logen_customer_id,
      pyGetD creds.logen_api_key⟩
  | .epost => ⟨.epost, pyGetD creds.epost_customer_id,
      pyGetD creds.epost_api_key⟩

/-- The model of `try: CarrierType(carrier) except ValueError:
carrier_type = CarrierType.CJ`. -/
def parseCarrierOrCJ (s : String) : CarrierType :=
  (carrierTypeOfString s).getD .cj

/-- The result dictionary of the `issue_invoice` tool; keys a return path
does not produce are `none`. -/
structure IssueResult where
  success : Bool
  tracking_number : Option String := none
  carrier : Option String := none
  carrier_name : Option String := none
  error : Option String := none
deriving DecidableEq, Repr

/-- `issue_invoice` (src/tools/shipping.py): resolve the carrier (silently
substituting CJ for an unknown code), build the client from the request's
credential bag, check sender info, issue through the carrier client and
echo the raw `carrier` argument string back in the result. The `channel`
argument is accepted but never used, as in the source. -/
def issueInvoice (creds? : Option UserCredentialsM)
    (order_id _channel carrier receiver_name receiver_phone receiver_address
      receiver_zipcode product_name : String)
    (live : LiveOutcome) (env : SimEnv) : IssueResult :=
  match creds? with
  | none =>
    { success := false
      error := some "인증 정보가 없습니다. https://mcp.soloseller.cloud 에서 회원가입 후 토큰을 발급받아 사용해주세요." }
  | some creds =>
    let carrier_type := parseCarrierOrCJ carrier
    let client := toolCarrierClient carrier_type creds
    if creds.sender_configured = false then
      { success := false
        error := some "발송인 정보가 설정되지 않았습니다. https://mcp.soloseller.cloud 의 설정 페이지에서 발송인 정보를 등록해주세요." }
    else
      let request : ShippingRequest :=
        { sender_name := pyGetD creds.sender_name
          sender_phone := pyGetD creds.sender_phone
          sender_address := pyGetD creds.sender_address
          sender_zipcode := pyGetD creds.sender_zipcode
          receiver_name := receiver_name
          receiver_phone := receiver_phone
          receiver_address := receiver_address
          receiver_zipcode := receiver_zipcode
          product_name := product_name
          order_id := some order_id
          channel_order_id := some order_id }
      let response := client.request_invoice request live env
      { success := response.success
        tracking_number := response.tracking_number
        carrier := some carrier
        carrier_name := some carrier_type.displayName
        error := response.error }

/-- The result dictionary of the `register_invoice` tool. -/
structure RegisterResult where
  success : Bool
  message : Option String := none
  order_id : Option String := none
  tracking_number : Option String := none
  error : Option String := none
deriving DecidableEq, Repr

/-- `register_invoice` (src/tools/shipping.py): resolve the carrier
(silently substituting CJ for an unknown code) and push the tracking
number to the marketplace; the channel client's HTTP outcome is the
`oracle`, keyed by everything the tool passes it. -/
def registerInvoice (creds? : Option UserCredentialsM)
    (order_id channel tracking_number carrier : String)
    (oracle : Channel → String → String → String → Bool) : RegisterResult :=
  match creds? with
  | none =>
    { success := false
      error := some "인증 정보가 없습니다. https://mcp.soloseller.cloud 에서 회원가입 후 토큰을 발급받아 사용해주세요." }
  | some creds =>
    let carrier_type := parseCarrierOrCJ carrier
    if channel = "naver" then
      if creds.naver_configured = false then
        { success := false
          error := some "네이버 API 키가 설정되지 않았습니다. https://mcp.soloseller.cloud 의 설정 페이지에서 API 키를 등록해주세요." }
      else
        let ok := oracle .naver order_id tracking_number
          carrier_type.marketplaceCode
        { success := ok
          message := some (if ok then "송장 등록 완료" else "송장 등록 실패")
          order_id := some order_id
          tracking_number := some tracking_number }
    else if channel = "coupang" then
      if creds.coupang_configured = false then
        { success := false
          error := some "쿠팡 API 키가 설정되지 않았습니다. https://mcp.soloseller.cloud 의 설정 페이지에서 API 키를 등록해주세요." }
      else
        let ok := oracle .coupang order_id tracking_number
          carrier_type.marketplaceCode
        { success := ok
          message := some (if ok then "송장 등록 완료" else "송장 등록 실패")
          order_id := some order_id
          tracking_number := some tracking_number }
    else
      { success := false, error := some ("지원하지 않는 채널: " ++ channel) }

/-- A concrete credential bag: sender configured, carriers keyless. -/
def c10creds : UserCredentialsM :=
  { sender_name := some "홍길동"
    sender_phone := some "01011112222"
    sender_address := some "서울시 강남구" }

/-- C10 counterexample: an invalid carrier string does fall back to the CJ
client, but `issue_invoice` echoes the raw invalid string in its result's
`carrier` field, so the call does not behave exactly as if `carrier="cj"`
had been passed — the two results differ. -/
theorem invalid_carrier_counterexample :
    (issueInvoice (some c10creds) "ORD1" "naver" "dhl" "김철수" "01033334444"
      "부산시" "" "상품" .connectError sampleEnv).carrier = some "dhl" ∧
    (issueInvoice (some c10creds) "ORD1" "naver" "cj" "김철수" "01033334444"
      "부산시" "" "상품" .connectError sampleEnv).carrier = some "cj" ∧
    issueInvoice (some c10creds) "ORD1" "naver" "dhl" "김철수" "01033334444"
        "부산시" "" "상품" .connectError sampleEnv ≠
      issueInvoice (some c10creds) "ORD1" "naver" "cj" "김철수" "01033334444"
        "부산시" "" "상품" .connectError sampleEnv := by
  refine ⟨?_, ?_, ?_⟩ <;> decide

/-- C10 (amended): for every carrier string that is not one of the five
known codes, `issue_invoice` and `register_invoice` do not fail — carrier
resolution silently substitutes CJ, so `register_invoice` behaves exactly
as with `carrier="cj"`, and `issue_invoice` behaves exactly as with
`carrier="cj"` except that its result's `carrier` field echoes the original
invalid string. -/
theorem invalid_carrier_cj_fallback (creds? : Option UserCredentialsM)
    (oid ch tn s rn rp ra rz pn : String) (live : LiveOutcome) (env : SimEnv)
    (oracle : Channel → String → String → String → Bool)
    (hs : carrierTypeOfString s = none) :
    registerInvoice creds? oid ch tn s oracle =
      registerInvoice creds? oid ch tn "cj" oracle ∧
    issueInvoice creds? oid ch s rn rp ra rz pn live env =
      { issueInvoice creds? oid ch "cj" rn rp ra rz pn live env with
        carrier :=
          (issueInvoice creds? oid ch s rn rp ra rz pn live env).carrier } := by
  have hp : parseCarrierOrCJ s = CarrierType.cj := by
    unfold parseCarrierOrCJ
    rw [hs]
    rfl
  have hp2 : parseCarrierOrCJ "cj" = CarrierType.cj := rfl
  constructor
  · unfold registerInvoice
    match creds? with
    | none => rfl
    | some creds =>
      rw [hp, hp2]
  · unfold issueInvoice
    match creds? with
    | none => rfl
    | some creds =>
      rw [hp, hp2]
      by_cases hsc : creds.sender_configured = false
      · simp [hsc]
      · simp [hsc]

/-- Witness for the amended C10 theorem at a concrete invalid carrier. -/
theorem invalid_carrier_cj_fallback_witness :
    carrierTypeOfString "dhl" = none ∧
    registerInvoice (some c10creds) "O1" "coupang" "T1" "dhl"
        (fun _ _ _ _ => true) =
      registerInvoice (some c10creds) "O1" "coupang" "T1" "cj"
        (fun _ _ _ _ => true) :=
  ⟨by decide,
   (invalid_carrier_cj_fallback (some c10creds) "O1" "coupang" "T1" "dhl"
     "김철수" "01033334444" "부산시" "" "상품" .connectError sampleEnv
     (fun _ _ _ _ => true) (by decide)).1⟩

end SoloSeller
